import Mathlib

/-!
Shallow embedding of the EduAi WhatsApp tutor core (src/app/handlers.py,
src/app/db.py, src/app/llm.py, src/app/utils.py) and proofs of the frozen
claims about it.

Text is modelled as `List Char` (`Str`); Python string primitives
(`strip`, `lower`, `title`, `replace`, `startswith`, `in`, `split`) are
given executable models below.  Whitespace is modelled with Lean's
`Char.isWhitespace` (space, tab, CR, LF); the messages and validator
alphabets of this program are ASCII, where this coincides with Python.
-/

namespace EduAi

/-- Program text: a Python `str` as a list of characters. -/
abbrev Str : Type := List Char

/-- Embed a Lean string literal as program text. -/
def str (s : String) : Str := s.data

/-- Python `s.startswith(pre)`. -/
def strStartsWith : Str → Str → Bool
  | _, [] => true
  | [], _ :: _ => false
  | c :: t, p :: q => c == p && strStartsWith t q

/-- Python `needle in hay` (substring test). -/
def strContains : Str → Str → Bool
  | [], needle => needle.isEmpty
  | c :: t, needle => strStartsWith (c :: t) needle || strContains t needle

/-- Python `s.lstrip()` restricted to a character predicate. -/
def stripLeft (p : Char → Bool) (s : Str) : Str := s.dropWhile p

/-- Python `s.strip(chars)` for a character predicate: drop the predicate's
characters from both ends. -/
def stripBoth (p : Char → Bool) (s : Str) : Str :=
  ((s.dropWhile p).reverse.dropWhile p).reverse

/-- Python `s.strip()` (whitespace at both ends). -/
def pyStrip (s : Str) : Str := stripBoth Char.isWhitespace s

/-- Python `s.strip('?')`. -/
def pyStripQm (s : Str) : Str := stripBoth (fun c => c == '?') s

/-- Python `s.lower()` (ASCII). -/
def pyLower (s : Str) : Str := s.map Char.toLower

/-- Python `s.title()` (ASCII): a letter is uppercased when the previous
character is not a letter, lowercased otherwise. -/
def pyTitleGo : Bool → Str → Str
  | _, [] => []
  | prevNonAlpha, c :: t =>
    (if c.isAlpha then (if prevNonAlpha then c.toUpper else c.toLower) else c)
      :: pyTitleGo (!c.isAlpha) t

/-- Python `s.title()`. -/
def pyTitle (s : Str) : Str := pyTitleGo true s

/-- Python `hay.replace(needle, '')` for a non-empty needle: remove all
non-overlapping occurrences, left to right.  (The handler only ever calls
`replace` with the fixed non-empty question keywords.)  The recursion is
driven by a fuel counter equal to the remaining length — each step
consumes at least one character, so the fuel never runs out before the
text does. -/
def strRemoveAllGo (needle : Str) : Nat → Str → Str
  | _, [] => []
  | 0, hay => hay
  | fuel + 1, c :: t =>
    if strStartsWith (c :: t) needle && !needle.isEmpty then
      strRemoveAllGo needle fuel (t.drop (needle.length - 1))
    else
      c :: strRemoveAllGo needle fuel t

/-- Python `hay.replace(needle, '')` for a non-empty needle. -/
def strRemoveAll (needle hay : Str) : Str := strRemoveAllGo needle hay.length hay

/-- Python `s.split(',')`: `n` commas give `n + 1` pieces. -/
def splitOnComma : Str → List Str
  | [] => [[]]
  | c :: t =>
    if c == ',' then [] :: splitOnComma t
    else
      match splitOnComma t with
      | [] => [[c]]
      | h :: r => (c :: h) :: r

/-- Decimal digit run to a number; `none` when empty or a non-digit occurs. -/
def digitsToNat (s : Str) : Option Nat :=
  if s.isEmpty then none
  else
    s.foldl
      (fun acc c =>
        acc.bind fun n => if c.isDigit then some (n * 10 + (c.toNat - 48)) else none)
      (some 0)

/-- Python `int(s)` on ASCII decimal text: optional sign, then digits.
(Python also accepts underscore digit separators and non-ASCII digits;
those inputs are outside this model's alphabet.) -/
def pyParseInt (s : Str) : Option Int :=
  match pyStrip s with
  | [] => none
  | '+' :: ds => (digitsToNat ds).map Int.ofNat
  | '-' :: ds => (digitsToNat ds).map fun n => -(n : Int)
  | ds => (digitsToNat ds).map Int.ofNat

/-- Render an integer, as a Python f-string does. -/
def intStr (n : Int) : Str := (toString n).data

/-- Python rendering of an optional string inside an f-string: `None` when
absent. -/
def showOptStr : Option Str → Str
  | some s => s
  | none => str "None"

/-- Python rendering of an optional integer inside an f-string. -/
def showOptInt : Option Int → Str
  | some n => intStr n
  | none => str "None"

/-- Python truthiness of an optional string: `None` and `""` are falsy. -/
def optStrFalsy : Option Str → Bool
  | none => true
  | some s => s.isEmpty

/-! ## Validators (src/app/utils.py) -/

/-- utils.validate_age: trim, parse as int, accept only 3..100. -/
def validate_age (age_input : Str) : Option Int :=
  match pyParseInt age_input with
  | none => none
  | some age => if 3 ≤ age ∧ age ≤ 100 then some age else none

/-- utils.validate_subjects' synonym table, in source order. -/
def subject_mapping : List (Str × Str) :=
  [ (str "math", str "Mathematics"), (str "maths", str "Mathematics"),
    (str "mathematics", str "Mathematics"), (str "science", str "Science"),
    (str "english", str "English"), (str "history", str "History"),
    (str "geography", str "Geography"), (str "physics", str "Physics"),
    (str "chemistry", str "Chemistry"), (str "biology", str "Biology"),
    (str "literature", str "Literature"), (str "art", str "Art"),
    (str "music", str "Music"), (str "pe", str "Physical Education"),
    (str "sports", str "Sports"), (str "computer", str "Computer Science"),
    (str "programming", str "Programming"), (str "coding", str "Programming") ]

/-- utils.validate_subjects: split on commas, strip + lower each token, map
through the synonym table, keep unmatched tokens longer than 2 characters
title-cased, truncate to 10. -/
def validate_subjects (subjects_input : Str) : List Str :=
  if subjects_input.isEmpty then []
  else
    ((splitOnComma subjects_input).filterMap fun tok =>
      let subject := pyLower (pyStrip tok)
      match (subject_mapping.find? fun kv => kv.1 == subject) with
      | some kv => some kv.2
      | none => if subject.length > 2 then some (pyTitle subject) else none).take 10

/-- utils.validate_country: trim, require length ≥ 2, title-case, require
letters, whitespace, hyphens and apostrophes only. -/
def validate_country (country_input : Str) : Option Str :=
  let t := pyStrip country_input
  if t.length < 2 then none
  else
    let country := pyTitle t
    if country.all fun ch =>
        ch.isAlpha || ch.isWhitespace || ch == '-' || ch.toNat == 39 then
      some country
    else none

/-- utils.validate_learning_mode: case-insensitive synonym match. -/
def validate_learning_mode (mode_input : Str) : Option Str :=
  let mode := pyLower (pyStrip mode_input)
  if mode == str "text" || mode == str "reading" || mode == str "written" then
    some (str "text")
  else if mode == str "audio" || mode == str "voice" || mode == str "spoken"
      || mode == str "listening" then
    some (str "audio")
  else none

/-- utils.parse_lesson_command: Python
`re.match(r'/lesson\s+(.+)', message.strip(), re.IGNORECASE)` followed by
`.strip()` of the captured group.  On the stripped message: a
case-insensitive `/lesson`, at least one whitespace character, then the
maximal run of non-newline characters starting at the first
non-whitespace character (the group), stripped.  `.` does not match a
newline, so the group stops at the first newline. -/
def parse_lesson_command (message : Str) : Option Str :=
  let s := pyStrip message
  if pyLower (s.take 7) == str "/lesson" then
    let rest := s.drop 7
    match rest with
    | [] => none
    | c :: _ =>
      if c.isWhitespace then
        match rest.dropWhile Char.isWhitespace with
        | [] => none
        | d :: ds => some (pyStrip (d :: ds.takeWhile fun ch => !(ch == '\n')))
      else none
  else none

/-- utils.get_greeting_emoji. -/
def get_greeting_emoji (age_group : Int) : Str :=
  if age_group ≤ 8 then str "🌟"
  else if age_group ≤ 12 then str "📚"
  else if age_group ≤ 16 then str "🎓"
  else str "👋"

/-! ## Store (src/app/db.py)

The two persisted entities and the CRUD layer.  Creation order of list
entries stands in for the `created_at` timestamps: `db.py` orders by
`created_at` descending and rows are created at monotonically increasing
times, so "newest" is the last-created matching row.  The dynamic
`**kwargs` updates of `update_user` / `update_progress` are modelled by
explicit partial-update records whose `some` fields are the keyword
arguments each call site passes. -/

/-- db.User: one row of the `users` table. -/
structure User where
  id : Nat
  phone_number : Str
  name : Option Str := none
  age : Option Int := none
  country : Option Str := none
  preferred_subjects : Option Str := none
  learning_mode : Option Str := none
  language : Str := str "en"
  onboarding_step : Str := str "name"
  is_onboarded : Bool := false
deriving DecidableEq

/-- db.Progress: one row of the `progress` table. -/
structure Progress where
  id : Nat
  user_id : Nat
  topic : Str
  lesson_content : Str
  lesson_step : Int := 1
  total_steps : Int := 1
  completed : Bool := false
  score : Option Int := none
deriving DecidableEq

/-- The durable store: both tables, in creation order, with the next
auto-increment primary keys. -/
structure Store where
  users : List User := []
  progresses : List Progress := []
  nextUserId : Nat := 0
  nextProgressId : Nat := 0
deriving DecidableEq

/-- db.get_user_by_phone: first user whose phone number matches. -/
def get_user_by_phone (st : Store) (phone : Str) : Option User :=
  st.users.find? fun u => u.phone_number == phone

/-- db.create_user: insert a fresh user with the column defaults
(`onboarding_step="name"`, `is_onboarded=False`, everything else NULL). -/
def create_user (phone : Str) (st : Store) : User × Store :=
  let u : User := { id := st.nextUserId, phone_number := phone }
  (u, { st with users := st.users ++ [u], nextUserId := st.nextUserId + 1 })

/-- A partial update of a user row: the keyword arguments of one
`update_user` call. -/
structure UserUpdate where
  name : Option Str := none
  age : Option Int := none
  country : Option Str := none
  preferred_subjects : Option Str := none
  learning_mode : Option Str := none
  language : Option Str := none
  onboarding_step : Option Str := none
  is_onboarded : Option Bool := none

/-- Apply a partial update to a user row (db.update_user's setattr loop). -/
def applyUserUpdate (u : User) (k : UserUpdate) : User :=
  { u with
    name := match k.name with | some v => some v | none => u.name
    age := match k.age with | some v => some v | none => u.age
    country := match k.country with | some v => some v | none => u.country
    preferred_subjects :=
      match k.preferred_subjects with | some v => some v | none => u.preferred_subjects
    learning_mode :=
      match k.learning_mode with | some v => some v | none => u.learning_mode
    language := match k.language with | some v => v | none => u.language
    onboarding_step :=
      match k.onboarding_step with | some v => v | none => u.onboarding_step
    is_onboarded := match k.is_onboarded with | some v => v | none => u.is_onboarded }

/-- db.update_user: mutate the row in place and commit. -/
def update_user (u : User) (k : UserUpdate) (st : Store) : User × Store :=
  let u' := applyUserUpdate u k
  (u', { st with users := st.users.map fun v => if v.id == u.id then u' else v })

/-- db.create_progress: insert a fresh progress row; `lesson_step`,
`completed` and `score` take the column defaults, `total_steps` is the
call's argument (every call site passes the default 1). -/
def create_progress (uid : Nat) (topic lesson_content : Str) (total_steps : Int)
    (st : Store) : Progress × Store :=
  let p : Progress :=
    { id := st.nextProgressId, user_id := uid, topic := topic,
      lesson_content := lesson_content, total_steps := total_steps }
  (p, { st with progresses := st.progresses ++ [p],
                nextProgressId := st.nextProgressId + 1 })

/-- db.get_current_lesson: the newest incomplete progress row of a user. -/
def get_current_lesson (st : Store) (uid : Nat) : Option Progress :=
  (st.progresses.filter fun p => p.user_id == uid && !p.completed).getLast?

/-- A partial update of a progress row: the keyword arguments of one
`update_progress` call. -/
structure ProgressUpdate where
  lesson_step : Option Int := none
  lesson_content : Option Str := none
  completed : Option Bool := none

/-- Apply a partial update to a progress row. -/
def applyProgressUpdate (p : Progress) (k : ProgressUpdate) : Progress :=
  { p with
    lesson_step := match k.lesson_step with | some v => v | none => p.lesson_step
    lesson_content :=
      match k.lesson_content with | some v => v | none => p.lesson_content
    completed := match k.completed with | some v => v | none => p.completed }

/-- db.update_progress: mutate the row in place and commit. -/
def update_progress (p : Progress) (k : ProgressUpdate) (st : Store) :
    Progress × Store :=
  let p' := applyProgressUpdate p k
  (p', { st with progresses := st.progresses.map fun q => if q.id == p.id then p' else q })

/-! ## Lesson generator (src/app/llm.py)

`LLMService` wraps the OpenRouter client.  The remote world is a
parameter: whether the API key is configured, and the outcome of the
connection-test call and of the lesson call (`Except.error` = the client
raised; `Except.ok none` = a response with no/None content; `Except.ok
(some c)` = a response whose content is `c`).  The service's mutable
`_initialized` / `client` fields are the explicit `LLMState`.  On the
paths where the service raises, the model returns `Except.error` with the
exception's message. -/

/-- The remote-call environment of one `LLMService`. -/
structure LLMEnv where
  apiKeyPresent : Bool
  testCall : Except Str (Option Str)
  lessonCall : Except Str (Option Str)

/-- The service's mutable state: `_initialized` and whether `client` is
set. -/
structure LLMState where
  inited : Bool := false
  clientSome : Bool := false
deriving DecidableEq

/-- llm.LLMService.initialize: no-op when already initialized; raise when
the API key is missing; otherwise build the client and run a test call,
wrapping any failure (exception, or falsy response content) in an
`OpenRouter initialization failed:` exception. -/
def llm_service_init (env : LLMEnv) (s : LLMState) : Except Str LLMState :=
  if s.inited then Except.ok s
  else if !env.apiKeyPresent then
    Except.error
      (str "OpenRouter API key is required. Please set OPENROUTER_API_KEY environment variable.")
  else
    match env.testCall with
    | Except.error e => Except.error (str "OpenRouter initialization failed: " ++ e)
    | Except.ok none =>
      Except.error (str "OpenRouter initialization failed: No response from OpenRouter API")
    | Except.ok (some c) =>
      if c.isEmpty then
        Except.error (str "OpenRouter initialization failed: No response from OpenRouter API")
      else Except.ok { inited := true, clientSome := true }

/-- llm.LLMService._create_lesson_prompt: the age-tiered style guide and
the system/user prompt pair. -/
def create_lesson_prompt (topic : Str) (age_group : Int) (user_name : Str) :
    Str × Str :=
  let style_guide :=
    if age_group ≤ 8 then
      str "Use very simple words, short sentences, and examples with toys, animals, or games"
    else if age_group ≤ 12 then
      str "Use simple language, clear examples, and everyday situations like school or home"
    else if age_group ≤ 16 then
      str "Use clear explanations with relatable examples and real-world situations"
    else
      str "Use detailed explanations with comprehensive examples and professional contexts"
  let system_prompt :=
    str "You are an expert educator and tutor.\nYour goal is to teach a topic clearly and concisely so that the learner fully understands it.\n\nInstructions:\n- Topic: " ++
      topic ++ str "\n- Age group: " ++ intStr age_group ++
      str " years old\n- Length: Keep it short and focused (150-200 words max).\n- Style: " ++
      style_guide ++
      str ".\n- Structure:\n   1. Brief introduction\n   2. Key explanation (step by step, or definition + example)\n   3. Real-life analogy or story that makes it easy to remember\n   4. One simple practice question at the end\n\nMake sure the explanation is **accurate**, **easy to follow**, and **age-appropriate**."
  let greeting := if user_name.isEmpty then str "" else str "Hey " ++ user_name ++ str "! "
  let user_prompt := greeting ++ str "Please teach me about " ++ topic ++ str "."
  (system_prompt, user_prompt)

/-- llm.py fallback dictionary entry for `fractions` (the f-string's exact
text; `_get_fallback_lesson` strips it on return). -/
def fractionsLesson : Str :=
  str "\nFractions are a way of showing parts of a whole! 🍕\n\nImagine you cut a pizza into 4 equal slices. If you eat 1 slice, that's 1/4 of the pizza. The number on top (numerator) shows how many parts you have. The number on the bottom (denominator) shows how many equal parts the whole is divided into.\n\nThink of it like sharing chocolate with friends. If you break a bar into 8 pieces and keep 3, you have 3/8 of the bar! 🍫\n\n👉 Practice: If you have 12 apples and eat 6, what fraction of the apples did you eat?\n            "

/-- llm.py fallback dictionary entry for `addition`. -/
def additionLesson : Str :=
  str "\nAddition means putting numbers together! ➕\n\nWhen we add, we combine groups of things. Like if you have 3 apples and I give you 2 more apples, you now have 5 apples total! We write this as 3 + 2 = 5.\n\nThink of addition like collecting toys. If you have 4 toy cars and find 3 more, you now have 7 toy cars! 🚗\n\n👉 Practice: If you have 6 stickers and get 4 more, how many stickers do you have in total?\n            "

/-- llm.py fallback dictionary entry for `photosynthesis`. -/
def photosynthesisLesson : Str :=
  str "\nPhotosynthesis is how plants make their own food! 🌱\n\nPlants are like little chefs that use sunlight, water, and air to cook up their meals. They take in sunlight through their leaves, drink water through their roots, and breathe in carbon dioxide from the air.\n\nThink of leaves as tiny solar panels that capture sunlight and turn it into energy. This process also makes oxygen - the air we breathe! That's why plants are so important for life on Earth.\n\n👉 Practice: What three things do plants need for photosynthesis?\n            "

/-- llm.py fallback dictionary entry for `multiplication`. -/
def multiplicationLesson : Str :=
  str "\nMultiplication is like super-fast addition! ✖️\n\nInstead of adding the same number over and over, we can multiply. If you have 3 groups of 4 apples each, that's 3 × 4 = 12 apples total. It's much faster than adding 4 + 4 + 4!\n\nThink of multiplication tables like recipes. Just like a cookie recipe might say \"makes 24 cookies,\" multiplication tells us how many we get when we have groups of the same size.\n\n👉 Practice: If you have 5 bags with 6 marbles each, how many marbles do you have in total?\n            "

/-- llm.py fallback dictionary entry for `solar system`. -/
def solarSystemLesson : Str :=
  str "\nOur solar system is like a cosmic neighborhood! 🌞\n\nThe Sun is at the center, and eight planets orbit around it like runners on a track. Mercury is closest and hottest, while Neptune is farthest and coldest. Earth is in the perfect spot - not too hot, not too cold - just right for life!\n\nThink of the solar system like a giant merry-go-round with the Sun in the middle. Each planet takes a different amount of time to complete one trip around the Sun - that's what we call a year!\n\n👉 Practice: Which planet is closest to the Sun?\n            "

/-- llm.py generic fallback template for an unmatched topic. -/
def genericFallback (topic : Str) : Str :=
  str "\nI'd love to teach you about " ++ topic ++
    str "! 📚\n\n" ++ topic ++
    str " is an interesting subject that helps us understand the world better. While I'm having trouble generating a detailed lesson right now, I encourage you to explore this topic further.\n\nThink about how " ++
    topic ++
    str " might relate to things you see every day. Learning becomes easier when we connect new ideas to things we already know!\n\n👉 Practice: Can you think of one way " ++
    topic ++
    str " might be useful in everyday life?\n\nTry asking me again, or ask for help with a specific part of " ++
    topic ++ str " that interests you most!\n        "

/-- llm.LLMService._get_fallback_lesson: substring-match the lowercased
topic against the dictionary keys in insertion order; otherwise the
generic template.  (`age_group` is accepted and unused, as in the
source.) -/
def get_fallback_lesson (topic : Str) (age_group : Int) : Str :=
  let topic_lower := pyLower topic
  if strContains topic_lower (str "fractions") then pyStrip fractionsLesson
  else if strContains topic_lower (str "addition") then pyStrip additionLesson
  else if strContains topic_lower (str "photosynthesis") then pyStrip photosynthesisLesson
  else if strContains topic_lower (str "multiplication") then pyStrip multiplicationLesson
  else if strContains topic_lower (str "solar system") then pyStrip solarSystemLesson
  else pyStrip (genericFallback topic)

/-- llm.LLMService.generate_lesson.  When not yet initialized it calls
`initialize`, whose exception (missing key, failed test call) propagates
to the caller.  After a successful initialization it builds the prompts
and performs the lesson call; a raising call, falsy content or content
whose stripped length is below 50 all fall back to
`_get_fallback_lesson`. -/
def llm_generate_lesson (env : LLMEnv) (s : LLMState) (topic : Str)
    (age_group : Int) (user_name : Str) : Except Str (Str × LLMState) :=
  match (if s.inited then Except.ok s else llm_service_init env s) with
  | Except.error e => Except.error e
  | Except.ok s' =>
    if !s'.inited || !s'.clientSome then
      Except.ok (get_fallback_lesson topic age_group, s')
    else
      let _prompts := create_lesson_prompt topic age_group user_name
      match env.lessonCall with
      | Except.error _ => Except.ok (get_fallback_lesson topic age_group, s')
      | Except.ok none => Except.ok (get_fallback_lesson topic age_group, s')
      | Except.ok (some content) =>
        let lesson_content := pyStrip content
        if lesson_content.length < 50 then
          Except.ok (get_fallback_lesson topic age_group, s')
        else Except.ok (lesson_content, s')

/-! ## The turn monad

One inbound message is handled as one sequence of store operations.  A
turn computation is state (the store plus an operation counter) passed
through an exception: `Except.error` is a raised Python exception
carrying its message, and leaves the store as whatever was committed
before the raise (SQLAlchemy commits inside each db helper; nothing rolls
back).  The store layer itself may fail unexpectedly: `dbFault` is an
injected failure schedule saying whether the n-th store operation of the
turn raises instead of committing.  `noFault` is the normal schedule. -/

/-- The mutable state of one turn: the store and how many store
operations ran. -/
structure TurnState where
  store : Store
  ops : Nat
deriving DecidableEq

/-- A turn computation. -/
def DbM (α : Type) : Type := TurnState → Except Str α × TurnState

/-- Return a value. -/
def dbPure {α : Type} (a : α) : DbM α := fun s => (Except.ok a, s)

/-- Raise a Python exception with message `e`. -/
def dbThrow {α : Type} (e : Str) : DbM α := fun s => (Except.error e, s)

/-- Sequence two turn computations. -/
def dbBind {α β : Type} (x : DbM α) (f : α → DbM β) : DbM β := fun s =>
  match x s with
  | (Except.ok a, s1) => f a s1
  | (Except.error e, s1) => (Except.error e, s1)

/-- Run one store operation under the failure schedule `fault`: either it
raises (committing nothing) or it commits `f`'s result. -/
def dbOp {α : Type} (fault : Nat → Option Str) (f : Store → α × Store) : DbM α :=
  fun s =>
    match fault s.ops with
    | some e => (Except.error e, { s with ops := s.ops + 1 })
    | none => (Except.ok (f s.store).1, { store := (f s.store).2, ops := s.ops + 1 })

/-- A Python `try`/`except Exception` block. -/
def dbCatch {α : Type} (x : DbM α) (h : Str → DbM α) : DbM α := fun s =>
  match x s with
  | (Except.ok a, s1) => (Except.ok a, s1)
  | (Except.error e, s1) => h e s1

/-- Lift a collaborator call's outcome into the turn. -/
def dbLift {α : Type} (r : Except Str α) : DbM α := fun s => (r, s)

/-- Evaluate `user.age` where the code compares it to a number: a missing
age is Python `None`, and a `None <= n` comparison raises `TypeError`. -/
def requireAge (a : Option Int) : DbM Int :=
  match a with
  | some n => dbPure n
  | none => dbThrow (str "TypeError")

/-- The failure-free store schedule. -/
def noFault : Nat → Option Str := fun _ => none

/-! ## Message handler (src/app/handlers.py)

The handler's collaborators are parameters: `gen` is the lesson
generator (`llm.generate_lesson`; its model is `llm_generate_lesson`
above, but the handler is proved against any outcome), `fmt` is
`utils.format_for_whatsapp` applied at the caller's age argument (the
source formatter never reads its `age_group` parameter, utils.py lines
6-12), and `pyHash` is the process's `hash` on strings (stable within
one process, which is what one `Env` models). -/

/-- The handler's collaborators for one turn. -/
structure Env where
  gen : Str → Option Int → Option Str → Except Str Str
  fmt : Str → Str
  pyHash : Str → Nat
  dbFault : Nat → Option Str

/-- MessageHandler.onboarding_steps['name']. -/
def namePrompt : Str := str "What should I call you? 😊"

/-- MessageHandler.onboarding_steps['age']. -/
def agePrompt : Str := str "How old are you? (This helps me adjust lessons for you)"

/-- MessageHandler.onboarding_steps['country']. -/
def countryPrompt : Str := str "Which country are you from?"

/-- MessageHandler.onboarding_steps['subjects']. -/
def subjectsPrompt : Str :=
  str "What subjects interest you? (e.g., math, science, history - separate with commas)"

/-- MessageHandler.onboarding_steps['learning_mode']. -/
def learningModePrompt : Str :=
  str "Do you prefer learning through \"text\" or would you like \"audio\" lessons in the future?"

/-- MessageHandler.onboarding_steps['language']. -/
def languagePrompt : Str :=
  str "What language would you like to learn in? (Currently supporting English - just type \"english\" or \"en\")"

/-- The new-user welcome preamble emitted before the name prompt. -/
def welcomePreamble : Str :=
  str "Welcome to your AI Tutor! " ++ get_greeting_emoji 25 ++
    str " \n\nI'm here to help you learn anything you're curious about through fun, personalized lessons!\n\n"

/-- The top-level generic technical-difficulty reply. -/
def techDifficulties : Str :=
  str "Sorry, I'm having some technical difficulties right now. Please try again in a moment! 🔧"

/-- utils.store_subjects_as_json (`json.dumps` of a string list; quote,
backslash and whitespace-control escapes cover the alphabet this flow
produces). -/
def store_subjects_as_json (subjects : List Str) : Str :=
  str "[" ++
    List.intercalate (str ", ")
      (subjects.map fun sub =>
        str "\"" ++
          (sub.flatMap fun c =>
            if c == '"' then str "\\\""
            else if c == '\\' then str "\\\\"
            else if c == '\n' then str "\\n"
            else if c == '\t' then str "\\t"
            else if c == '\r' then str "\\r"
            else [c]) ++ str "\"") ++ str "]"

/-- MessageHandler._process_name_step. -/
def process_name_step (env : Env) (user : User) (message : Str) : DbM Str :=
  let name := pyStrip message
  if name.length < 1 || name.length > 50 then
    dbPure (str "Please enter a name between 1 and 50 characters. What should I call you?")
  else
    dbBind
      (dbOp env.dbFault
        (update_user user { name := some name, onboarding_step := some (str "age") }))
      fun _ =>
        dbPure (str "Nice to meet you, " ++ name ++ str "! " ++ get_greeting_emoji 25 ++
          str "\n\n" ++ agePrompt)

/-- MessageHandler._process_age_step. -/
def process_age_step (env : Env) (user : User) (message : Str) : DbM Str :=
  match validate_age message with
  | none => dbPure (str "Please enter a valid age (between 3 and 100). How old are you?")
  | some age =>
    dbBind
      (dbOp env.dbFault
        (update_user user { age := some age, onboarding_step := some (str "country") }))
      fun _ =>
        dbPure (str "Got it! " ++ get_greeting_emoji age ++ str "\n\n" ++ countryPrompt)

/-- MessageHandler._process_country_step. -/
def process_country_step (env : Env) (user : User) (message : Str) : DbM Str :=
  match validate_country message with
  | none => dbPure (str "Please enter a valid country name. Which country are you from?")
  | some country =>
    dbBind
      (dbOp env.dbFault
        (update_user user
          { country := some country, onboarding_step := some (str "subjects") }))
      fun _ =>
        dbPure (str "Great! Welcome from " ++ country ++ str "! 🌍\n\n" ++ subjectsPrompt)

/-- MessageHandler._process_subjects_step. -/
def process_subjects_step (env : Env) (user : User) (message : Str) : DbM Str :=
  let subjects := validate_subjects message
  if subjects.isEmpty then
    dbPure
      (str "Please enter at least one subject you're interested in (e.g., math, science, history):")
  else
    dbBind
      (dbOp env.dbFault
        (update_user user
          { preferred_subjects := some (store_subjects_as_json subjects),
            onboarding_step := some (str "learning_mode") }))
      fun _ =>
        dbPure (str "Awesome! I see you're interested in: " ++
          List.intercalate (str ", ") subjects ++ str " 📚\n\n" ++ learningModePrompt)

/-- MessageHandler._process_learning_mode_step. -/
def process_learning_mode_step (env : Env) (user : User) (message : Str) : DbM Str :=
  match validate_learning_mode message with
  | none =>
    dbPure
      (str "Please choose either \"text\" for written lessons or \"audio\" for spoken lessons (audio coming soon!):")
  | some mode =>
    dbBind
      (dbOp env.dbFault
        (update_user user
          { learning_mode := some mode, onboarding_step := some (str "language") }))
      fun _ =>
        let mode_text := if mode == str "text" then str "text-based" else str "audio-based"
        dbPure (str "Perfect! I'll provide " ++ mode_text ++ str " lessons. 📖\n\n" ++
          languagePrompt)

/-- The onboarding-completion message of _process_language_step (the
f-string's exact text, built from the updated user row). -/
def completedMsg (u : User) (emojiAge : Int) : Str :=
  str "\n🎉 *Welcome to your personalized AI Tutor, " ++ showOptStr u.name ++ str "!* " ++
    get_greeting_emoji emojiAge ++
    str "\n\nYou're all set up! Here's what I know about you:\n• Age: " ++
    showOptInt u.age ++ str "\n• Country: " ++ showOptStr u.country ++
    str "\n• Learning mode: " ++ showOptStr u.learning_mode ++
    str "\n\n*Ready to learn? Try these commands:*\n📚 `/lesson <topic>` - Start learning any topic\n❓ `/help` - Get help and see all commands\n\n*Example:* Try typing `/lesson fractions` or `/lesson photosynthesis`\n\nWhat would you like to learn about first? 🚀\n        "

/-- MessageHandler._process_language_step. -/
def process_language_step (env : Env) (user : User) (message : Str) : DbM Str :=
  let language := pyLower (pyStrip message)
  if !(language == str "english" || language == str "en" || language == str "eng") then
    dbPure (str "Currently I only support English. Please type \"english\" or \"en\" to continue:")
  else
    dbBind
      (dbOp env.dbFault
        (update_user user
          { language := some (str "en"), is_onboarded := some true,
            onboarding_step := some (str "completed") }))
      fun u' =>
        dbBind (requireAge u'.age) fun a =>
          dbPure (env.fmt (completedMsg u' a))

/-- MessageHandler._handle_onboarding: dispatch on the onboarding cursor,
with the new-user special case first. -/
def handle_onboarding (env : Env) (user : User) (message : Str)
    (is_new_user : Bool) : DbM Str :=
  let current_step := user.onboarding_step
  if is_new_user && current_step == str "name" && optStrFalsy user.name then
    dbPure (welcomePreamble ++ namePrompt)
  else if current_step == str "name" then process_name_step env user message
  else if current_step == str "age" then process_age_step env user message
  else if current_step == str "country" then process_country_step env user message
  else if current_step == str "subjects" then process_subjects_step env user message
  else if current_step == str "learning_mode" then
    process_learning_mode_step env user message
  else if current_step == str "language" then process_language_step env user message
  else
    dbPure (str "Something went wrong with onboarding. Let me help you start over! What's your name?")

/-- utils.get_help_message's text before formatting: the shared command
list plus the age band's tips. -/
def get_help_message_text (age_group : Int) : Str :=
  str "\n🤖 *WhatsApp AI Tutor Commands*\n\n📚 `/lesson <topic>` - Get a lesson on any topic\n➡️ `/next` - Continue to next part of lesson\n❓ `/help` - Show this help message\n\n*Examples:*\n• /lesson fractions\n• /lesson photosynthesis  \n• /lesson world war 2\n" ++
    (if age_group ≤ 8 then
      str "\n🌟 *Tips for little learners:*\n• Ask about anything you're curious about!\n• Try topics like: animals, colors, shapes, numbers\n• I'll make it super fun and easy! 🎉\n"
    else if age_group ≤ 12 then
      str "\n📖 *Study Tips:*\n• Try school subjects: math, science, history\n• Ask about homework topics\n• Practice questions help you learn better! ✏️\n"
    else if age_group ≤ 16 then
      str "\n🎓 *Study Smart:*\n• Get help with exam topics\n• Ask for explanations of difficult concepts\n• Perfect for homework and test prep 📝\n"
    else
      str "\n💼 *Professional Learning:*\n• Explore any topic of interest\n• Get clear, structured explanations\n• Perfect for skill development and knowledge growth 📈\n")

/-- MessageHandler._handle_help_command (utils.get_help_message at the
user's age). -/
def handle_help_command (env : Env) (user : User) : DbM Str :=
  dbBind (requireAge user.age) fun a => dbPure (env.fmt (get_help_message_text a))

/-- The error reply of _handle_lesson_command for a missing topic. -/
def noTopicReply : Str :=
  str "Please specify a topic! For example: `/lesson fractions` or `/lesson photosynthesis` 📚"

/-- MessageHandler._handle_lesson_command. -/
def handle_lesson_command (env : Env) (user : User) (message : Str) : DbM Str :=
  match parse_lesson_command message with
  | none => dbPure noTopicReply
  | some topic =>
    dbCatch
      (dbBind (dbLift (env.gen topic user.age user.name)) fun lesson_content =>
        dbBind (dbOp env.dbFault (create_progress user.id topic lesson_content 1))
          fun _ =>
            dbPure (str "📚 *Lesson: " ++ pyTitle topic ++ str "*\n\n" ++
              env.fmt lesson_content ++
              str "\n\n_Type `/next` for more on this topic or `/lesson <new topic>` for something else!_"))
      fun _ =>
        dbPure (str "Sorry, I had trouble creating a lesson on " ++ topic ++
          str ". Please try a different topic or try again later! 📚")

/-- The reply of _handle_next_command when no incomplete lesson exists. -/
def noLessonsReply : Str :=
  str "You don't have any lessons in progress. Start a new lesson with `/lesson <topic>`! 📚"

/-- The apologetic reply of _handle_next_command on generation failure. -/
def nextFailReply : Str :=
  str "Sorry, I had trouble preparing the next part. Try starting a new lesson with `/lesson <topic>`! 📚"

/-- MessageHandler._handle_next_command. -/
def handle_next_command (env : Env) (user : User) : DbM Str :=
  dbBind (dbOp env.dbFault fun st => (get_current_lesson st user.id, st))
    fun current =>
      match current with
      | none => dbPure noLessonsReply
      | some current_lesson =>
        dbCatch
          (dbBind
            (dbLift (env.gen (current_lesson.topic ++ str " - Advanced Concepts")
              user.age user.name))
            fun lesson_content =>
              dbBind
                (dbOp env.dbFault
                  (update_progress current_lesson
                    { lesson_step := some (current_lesson.lesson_step + 1),
                      lesson_content := some lesson_content }))
                fun p' =>
                  dbPure (str "📚 *" ++ pyTitle current_lesson.topic ++ str " - Part " ++
                    intStr p'.lesson_step ++ str "*\n\n" ++ env.fmt lesson_content ++
                    str "\n\n_Type `/next` to continue or `/lesson <topic>` for something new!_"))
          fun _ => dbPure nextFailReply

/-- MessageHandler._handle_general_message's question keywords, in source
order. -/
def question_keywords : List Str :=
  [str "what is", str "how do", str "how does", str "explain",
   str "teach me", str "learn about"]

/-- The keyword loop of _handle_general_message: the first keyword found
in the lowered message whose residual topic (all keyword occurrences
removed, `?` then whitespace stripped) is longer than 3 characters. -/
def scanKeywords (message_lower : Str) : List Str → Option Str
  | [] => none
  | kw :: rest =>
    if strContains message_lower kw then
      let topic := pyStrip (pyStripQm (strRemoveAll kw message_lower))
      if topic.length > 3 then some topic else scanKeywords message_lower rest
    else scanKeywords message_lower rest

/-- The three canned replies of _handle_general_message for the oldest
age band, in source order. -/
def general_responses (user : User) : List Str :=
  [ str "Hi " ++ showOptStr user.name ++
      str "! 👋 I'm here to help you learn. Try `/lesson <topic>` to start learning something new!",
    str "Hello! Ready to learn something interesting? Use `/lesson <topic>` or type `/help` for commands! 📚",
    str "Hey there! What would you like to learn about today? Type `/lesson <topic>` to get started! 🎓" ]

/-- MessageHandler._handle_general_message. -/
def handle_general_message (env : Env) (user : User) (message : Str) : DbM Str :=
  let message_lower := pyLower message
  match scanKeywords message_lower question_keywords with
  | some topic =>
    dbPure (str "Great question! Let me teach you about " ++ topic ++
      str ". 📚\n\nTry: `/lesson " ++ topic ++
      str "`\n\nOr type `/help` to see all available commands!")
  | none =>
    dbBind (requireAge user.age) fun a =>
      let response :=
        if a ≤ 8 then
          str "Hi " ++ showOptStr user.name ++
            str "! 🌟 Want to learn something fun? Try `/lesson colors` or `/lesson animals`!"
        else if a ≤ 12 then
          str "Hey " ++ showOptStr user.name ++
            str "! 📚 Ready for a lesson? Try `/lesson fractions` or `/lesson dinosaurs`!"
        else
          (general_responses user).getD
            (env.pyHash user.phone_number % (general_responses user).length) (str "")
      dbPure (env.fmt response)

/-- MessageHandler._handle_regular_message: strip, then route by command
token. -/
def handle_regular_message (env : Env) (user : User) (message0 : Str) : DbM Str :=
  let message := pyStrip message0
  if strStartsWith (pyLower message) (str "/help") then
    handle_help_command env user
  else if strStartsWith (pyLower message) (str "/lesson") then
    handle_lesson_command env user message
  else if strStartsWith (pyLower message) (str "/next") then
    handle_next_command env user
  else
    handle_general_message env user message

/-- The body of MessageHandler.process_message's `try` block. -/
def process_message_inner (env : Env) (phone message : Str) : DbM Str :=
  dbBind (dbOp env.dbFault fun st => (get_user_by_phone st phone, st)) fun found =>
    match found with
    | none =>
      dbBind (dbOp env.dbFault (create_user phone)) fun user =>
        if !user.is_onboarded then handle_onboarding env user message true
        else handle_regular_message env user message
    | some user =>
      if !user.is_onboarded then handle_onboarding env user message false
      else handle_regular_message env user message

/-- MessageHandler.process_message: the whole turn under the top-level
`except Exception` that converts any raise into the generic reply. -/
def process_message (env : Env) (phone message : Str) (s : TurnState) :
    Str × TurnState :=
  match process_message_inner env phone message s with
  | (Except.ok reply, s') => (reply, s')
  | (Except.error _, s') => (techDifficulties, s')

/-- One whole turn on a store: handlers.process_whatsapp_message. -/
def runTurn (env : Env) (phone message : Str) (st : Store) : Str × Store :=
  let r := process_message env phone message { store := st, ops := 0 }
  (r.1, r.2.store)

/-! ## Basic lemmas -/

/-- The user row `create_user` inserts for a phone number. -/
def freshUser (st : Store) (phone : Str) : User :=
  { id := st.nextUserId, phone_number := phone }

/-- The empty store. -/
def emptyStore : Store := {}

/-- A concrete failure-free environment for witnesses: the generator
always answers `LESSON`, the formatter is the identity, the string hash
is constantly 0. -/
def witEnv : Env :=
  { gen := fun _ _ _ => Except.ok (str "LESSON"), fmt := id,
    pyHash := fun _ => 0, dbFault := noFault }

/-- The progress row a successful `/lesson topic` command inserts. -/
def freshProgress (st : Store) (uid : Nat) (topic content : Str) : Progress :=
  { id := st.nextProgressId, user_id := uid, topic := topic, lesson_content := content }

/-- An onboarded user row for witnesses. -/
def onboardedUser : User :=
  { id := 0, phone_number := str "+15550100", name := some (str "Alice"),
    age := some 12, country := some (str "Singapore"),
    preferred_subjects := some (str "[\"Mathematics\"]"),
    learning_mode := some (str "text"), language := str "en",
    onboarding_step := str "completed", is_onboarded := true }

/-- A store holding exactly the onboarded witness user. -/
def storeWithUser : Store := { users := [onboardedUser], nextUserId := 1 }

/-- The row the `/next` command rewrites: step incremented, content
replaced. -/
def advancedProgress (p : Progress) (content : Str) : Progress :=
  applyProgressUpdate p
    { lesson_step := some (p.lesson_step + 1), lesson_content := some content }

/-- A progress row in flight for witnesses. -/
def prog0 : Progress :=
  { id := 0, user_id := 0, topic := str "photosynthesis", lesson_content := str "L1" }

/-- The witness store with one incomplete lesson for `onboardedUser`. -/
def storeWithLesson : Store :=
  { users := [onboardedUser], nextUserId := 1, progresses := [prog0], nextProgressId := 1 }

/-- A witness environment whose generator always raises. -/
def failGenEnv : Env :=
  { gen := fun _ _ _ => Except.error (str "boom"), fmt := id,
    pyHash := fun _ => 0, dbFault := noFault }

/-- A user still at the name step, for witnesses. -/
def nameStepUser : User := { id := 0, phone_number := str "+15550100" }

/-- A store holding exactly the name-step witness user. -/
def nameStepStore : Store := { users := [nameStepUser], nextUserId := 1 }

/-- Whether the given onboarding step's handler rejects the message (the
step's validation fails), read off the step handlers in handlers.py. -/
def stepRejects (step m : Str) : Bool :=
  if step == str "name" then
    (pyStrip m).length < 1 || (pyStrip m).length > 50
  else if step == str "age" then (validate_age m).isNone
  else if step == str "country" then (validate_country m).isNone
  else if step == str "subjects" then (validate_subjects m).isEmpty
  else if step == str "learning_mode" then (validate_learning_mode m).isNone
  else if step == str "language" then
    !(pyLower (pyStrip m) == str "english" || pyLower (pyStrip m) == str "en" ||
      pyLower (pyStrip m) == str "eng")
  else false

/-- The corrective re-prompt each step's handler returns on invalid
input. -/
def repromptText (step : Str) : Str :=
  if step == str "name" then
    str "Please enter a name between 1 and 50 characters. What should I call you?"
  else if step == str "age" then
    str "Please enter a valid age (between 3 and 100). How old are you?"
  else if step == str "country" then
    str "Please enter a valid country name. Which country are you from?"
  else if step == str "subjects" then
    str "Please enter at least one subject you're interested in (e.g., math, science, history):"
  else if step == str "learning_mode" then
    str "Please choose either \"text\" for written lessons or \"audio\" for spoken lessons (audio coming soon!):"
  else if step == str "language" then
    str "Currently I only support English. Please type \"english\" or \"en\" to continue:"
  else []

/-- The linear successor of an onboarding step. -/
def stepNext (step : Str) : Str :=
  if step == str "name" then str "age"
  else if step == str "age" then str "country"
  else if step == str "country" then str "subjects"
  else if step == str "subjects" then str "learning_mode"
  else if step == str "learning_mode" then str "language"
  else if step == str "language" then str "completed"
  else step

/-- A user waiting at the age step, for witnesses. -/
def ageStepUser : User :=
  { id := 0, phone_number := str "+15550100", name := some (str "Alice"),
    onboarding_step := str "age" }

/-- A store holding exactly the age-step witness user. -/
def ageStepStore : Store := { users := [ageStepUser], nextUserId := 1 }

/-- The per-user state invariant. -/
def InvUser (u : User) : Prop :=
  (u.is_onboarded = true ↔ u.onboarding_step = str "completed") ∧
  (u.onboarding_step = str "country" ∨ u.onboarding_step = str "subjects" ∨
      u.onboarding_step = str "learning_mode" ∨ u.onboarding_step = str "language" ∨
      u.onboarding_step = str "completed" →
    u.age.isSome = true)

/-- The store invariant: every stored user satisfies `InvUser`. -/
def InvStore (st : Store) : Prop := ∀ u ∈ st.users, InvUser u

/-- The stores reachable from an empty store by any sequence of handled
messages, under any collaborator environments. -/
inductive Reachable : Store → Prop where
  | init : Reachable emptyStore
  | step (st : Store) (env : Env) (phone m : Str) :
      Reachable st → Reachable (runTurn env phone m st).2

/-- A turn computation that preserves the store invariant on every path
(success, raise, injected store fault). -/
def PreservesInv {α : Type} (x : DbM α) : Prop :=
  ∀ s, InvStore s.store → InvStore ((x s).2).store

/-- A turn computation that never changes the store. -/
def KeepsStore {α : Type} (x : DbM α) : Prop :=
  ∀ s, ((x s).2).store = s.store

/-- A turn computation that commits nothing on the paths where it
raises. -/
def NoCommitOnError {α : Type} (x : DbM α) : Prop :=
  ∀ s e s', x s = (Except.error e, s') → s'.store = s.store

/-- A turn computation that never raises. -/
def NeverErr {α : Type} (x : DbM α) : Prop :=
  ∀ s e s', x s = (Except.error e, s') → False

/-- An environment whose very first store operation raises. -/
def dbDownEnv : Env :=
  { gen := fun _ _ _ => Except.ok (str "LESSON"), fmt := id, pyHash := fun _ => 0,
    dbFault := fun n => if n == 0 then some (str "OperationalError") else none }

/-- An onboarded adult user (age over 16) for witnesses. -/
def adultUser : User :=
  { id := 0, phone_number := str "+15550123", name := some (str "Jordan"),
    age := some 25, country := some (str "Singapore"),
    preferred_subjects := some (str "[\"History\"]"),
    learning_mode := some (str "text"), language := str "en",
    onboarding_step := str "completed", is_onboarded := true }

/-- A store holding exactly the adult witness user. -/
def adultStore : Store := { users := [adultUser], nextUserId := 1 }

/-- A prefix check is a `take` equation. -/
theorem strStartsWith_eq_take {p : Str} : ∀ {s : Str},
    strStartsWith s p = true ↔ p = s.take p.length := by
  induction p with
  | nil => intro s; simp [strStartsWith]
  | cons c t ih =>
    intro s
    cases s with
    | nil => simp [strStartsWith]
    | cons a b =>
      simp only [strStartsWith, List.length_cons, List.take_succ_cons,
        Bool.and_eq_true, beq_iff_eq, List.cons.injEq, ih]
      constructor
      · rintro ⟨rfl, h⟩; exact ⟨rfl, h⟩
      · rintro ⟨rfl, h⟩; exact ⟨rfl, h⟩

/-- A message routed to `/lesson` is not routed to `/help`. -/
theorem lesson_not_help {ml : Str} (h : strStartsWith ml (str "/lesson") = true) :
    strStartsWith ml (str "/help") = false := by
  rw [strStartsWith_eq_take] at h
  cases hh : strStartsWith ml (str "/help") with
  | false => rfl
  | true =>
    rw [strStartsWith_eq_take] at hh
    have h5 : (str "/help") = (ml.take (str "/lesson").length).take (str "/help").length := by
      rw [List.take_take]
      exact hh
    rw [← h] at h5
    exact absurd h5 (by decide)

/-- The first seven characters of the stripped message decide the
`/lesson` routing: `parse_lesson_command` succeeding implies the
`startswith('/lesson')` route is taken. -/
theorem parse_some_implies_lesson_route {m topic : Str}
    (h : parse_lesson_command m = some topic) :
    strStartsWith (pyLower (pyStrip m)) (str "/lesson") = true := by
  unfold parse_lesson_command at h
  by_cases h7 : pyLower ((pyStrip m).take 7) == str "/lesson"
  · rw [strStartsWith_eq_take]
    have : pyLower ((pyStrip m).take 7) = str "/lesson" := by
      exact beq_iff_eq.mp h7
    rw [show (str "/lesson").length = 7 from rfl, pyLower, ← List.map_take, ← pyLower, this]
  · simp [h7] at h

/-! ## C1: first contact from an unseen phone number -/

/-- C1.  For every phone number with no existing User record, processing
its first inbound message creates the User and returns the welcome
preamble followed by the name prompt, without parsing the message content
as a name: afterwards the stored record has `onboarding_step='name'`,
`is_onboarded=false` and no name recorded, regardless of what the first
message said. -/
theorem c1_first_message_creates_user_and_welcomes
    (env : Env) (st : Store) (phone message : Str)
    (hf : env.dbFault = noFault)
    (hu : get_user_by_phone st phone = none) :
    runTurn env phone message st =
      (welcomePreamble ++ namePrompt,
       { st with users := st.users ++ [freshUser st phone],
                 nextUserId := st.nextUserId + 1 }) ∧
    (freshUser st phone).onboarding_step = str "name" ∧
    (freshUser st phone).is_onboarded = false ∧
    (freshUser st phone).name = none := by
  refine ⟨?_, rfl, rfl, rfl⟩
  simp [runTurn, process_message, process_message_inner, dbOp, dbBind, dbPure, hf,
    noFault, hu, create_user, handle_onboarding, optStrFalsy, freshUser]

/-- Witness for C1: the first message (`hello`) of phone number
`+15550100` on the empty store. -/
theorem c1_witness :
    get_user_by_phone emptyStore (str "+15550100") = none ∧
    runTurn witEnv (str "+15550100") (str "hello") emptyStore =
      (welcomePreamble ++ namePrompt,
       { emptyStore with users := [freshUser emptyStore (str "+15550100")],
                         nextUserId := 1 }) ∧
    (freshUser emptyStore (str "+15550100")).onboarding_step = str "name" ∧
    (freshUser emptyStore (str "+15550100")).is_onboarded = false ∧
    (freshUser emptyStore (str "+15550100")).name = none := by
  have h := c1_first_message_creates_user_and_welcomes witEnv emptyStore
    (str "+15550100") (str "hello") rfl rfl
  exact ⟨rfl, h.1, h.2⟩

/-- A string starts with itself, whatever follows. -/
theorem strStartsWith_append (n rest : Str) : strStartsWith (n ++ rest) n = true := by
  induction n with
  | nil => cases rest <;> simp [strStartsWith]
  | cons c t ih => simp [strStartsWith, ih]

/-- A needle placed between two pieces is found. -/
theorem strContains_of_append (pre n suf : Str) :
    strContains (pre ++ (n ++ suf)) n = true := by
  induction pre with
  | nil =>
    cases n with
    | nil => cases suf <;> simp [strContains, strStartsWith]
    | cons c t =>
      have h := strStartsWith_append (c :: t) suf
      simp only [List.cons_append] at h
      simp [strContains, h]
  | cons p pre' ih => simp [strContains, ih]

/-- A needle found by re-associating: when `a ++ b` splits as `pre ++ n`,
the needle `n` occurs in `a ++ (b ++ y)`. -/
theorem strContains_of_parts (a b n y pre : Str) (h : a ++ b = pre ++ n) :
    strContains (a ++ (b ++ y)) n = true := by
  have e : a ++ (b ++ y) = pre ++ (n ++ y) := by
    rw [← List.append_assoc, h, List.append_assoc]
  rw [e]
  exact strContains_of_append ..

/-! ## C2: the /lesson command -/

/-- C2.  For every onboarded user, a `/lesson` message whose topic is
empty (the command parser finds none) returns an error reply and performs
no store mutation; a non-empty topic creates exactly one new Progress
record with `total_steps=1`, `lesson_step=1`, `completed=false`; and for
topic `fractions` the reply contains the literal text
`Lesson: Fractions`.  (The generator collaborator is assumed to answer;
its own never-fail contract is claim C4.) -/
theorem c2_lesson_command
    (env : Env) (st : Store) (phone m : Str) (u : User)
    (hf : env.dbFault = noFault)
    (hu : get_user_by_phone st phone = some u)
    (hob : u.is_onboarded = true)
    (hroute : strStartsWith (pyLower (pyStrip m)) (str "/lesson") = true) :
    (parse_lesson_command (pyStrip m) = none →
      runTurn env phone m st = (noTopicReply, st)) ∧
    (∀ topic content, parse_lesson_command (pyStrip m) = some topic →
      env.gen topic u.age u.name = Except.ok content →
      runTurn env phone m st =
        (str "📚 *Lesson: " ++ pyTitle topic ++ str "*\n\n" ++ env.fmt content ++
           str "\n\n_Type `/next` for more on this topic or `/lesson <new topic>` for something else!_",
         { st with progresses := st.progresses ++ [freshProgress st u.id topic content],
                   nextProgressId := st.nextProgressId + 1 }) ∧
      (freshProgress st u.id topic content).lesson_step = 1 ∧
      (freshProgress st u.id topic content).total_steps = 1 ∧
      (freshProgress st u.id topic content).completed = false) ∧
    (∀ content, parse_lesson_command (pyStrip m) = some (str "fractions") →
      env.gen (str "fractions") u.age u.name = Except.ok content →
      strContains (runTurn env phone m st).1 (str "Lesson: Fractions") = true) := by
  have hhelp := lesson_not_help hroute
  refine ⟨?_, ?_, ?_⟩
  · intro hparse
    simp [runTurn, process_message, process_message_inner, dbOp, dbBind, dbPure, hf,
      noFault, hu, hob, handle_regular_message, hhelp, hroute, handle_lesson_command,
      hparse]
  · intro topic content hparse hgen
    refine ⟨?_, rfl, rfl, rfl⟩
    simp [runTurn, process_message, process_message_inner, dbOp, dbBind, dbPure,
      dbCatch, dbLift, hf, noFault, hu, hob, handle_regular_message, hhelp, hroute,
      handle_lesson_command, hparse, hgen, create_progress, freshProgress]
  · intro content hparse hgen
    have h2 :
        (runTurn env phone m st).1 =
          str "📚 *Lesson: " ++ pyTitle (str "fractions") ++ str "*\n\n" ++
            env.fmt content ++
            str "\n\n_Type `/next` for more on this topic or `/lesson <new topic>` for something else!_" := by
      simp [runTurn, process_message, process_message_inner, dbOp, dbBind, dbPure,
        dbCatch, dbLift, hf, noFault, hu, hob, handle_regular_message, hhelp, hroute,
        handle_lesson_command, hparse, hgen]
    rw [h2, show pyTitle (str "fractions") = str "Fractions" from by decide]
    exact strContains_of_parts (str "📚 *Lesson: ") (str "Fractions")
      (str "Lesson: Fractions") _ (str "📚 *") (by decide)

/-- Witness for C2: `/lesson` with no topic mutates nothing, and
`/lesson fractions` yields a reply containing `Lesson: Fractions`. -/
theorem c2_witness :
    runTurn witEnv (str "+15550100") (str "/lesson") storeWithUser =
      (noTopicReply, storeWithUser) ∧
    strContains
      (runTurn witEnv (str "+15550100") (str "/lesson fractions") storeWithUser).1
      (str "Lesson: Fractions") = true := by
  have h1 := c2_lesson_command witEnv storeWithUser (str "+15550100")
    (str "/lesson") onboardedUser rfl (by decide) rfl (by decide)
  have h2 := c2_lesson_command witEnv storeWithUser (str "+15550100")
    (str "/lesson fractions") onboardedUser rfl (by decide) rfl (by decide)
  exact ⟨h1.1 (by decide), h2.2.2 (str "LESSON") (by decide) rfl⟩

/-- Two command tokens that disagree on their common length cannot both
be prefixes of one message. -/
theorem startsWith_excl {ml p q : Str} (h : strStartsWith ml p = true)
    (hne : ¬ p.take q.length = q.take p.length) : strStartsWith ml q = false := by
  rw [strStartsWith_eq_take] at h
  cases hq : strStartsWith ml q with
  | false => rfl
  | true =>
    rw [strStartsWith_eq_take] at hq
    refine absurd ?_ hne
    calc p.take q.length = (ml.take p.length).take q.length := by rw [← h]
      _ = ml.take (min q.length p.length) := List.take_take ..
      _ = ml.take (min p.length q.length) := by rw [Nat.min_comm]
      _ = (ml.take q.length).take p.length := (List.take_take ..).symm
      _ = q.take p.length := by rw [← hq]

/-! ## C3: the /next command -/

/-- C3.  For every onboarded user, `/next` with no incomplete Progress
record returns the instructive no-lessons reply and mutates nothing;
with at least one incomplete record it increments `lesson_step` and
replaces `lesson_content` on the newest incomplete record itself (same
identifier, no new row created); and if lesson generation fails, it
returns an apologetic reply with the store left exactly as it was before
the attempt. -/
theorem c3_next_command
    (env : Env) (st : Store) (phone m : Str) (u : User)
    (hf : env.dbFault = noFault)
    (hu : get_user_by_phone st phone = some u)
    (hob : u.is_onboarded = true)
    (hroute : strStartsWith (pyLower (pyStrip m)) (str "/next") = true) :
    (get_current_lesson st u.id = none →
      runTurn env phone m st = (noLessonsReply, st)) ∧
    (∀ p content, get_current_lesson st u.id = some p →
      env.gen (p.topic ++ str " - Advanced Concepts") u.age u.name = Except.ok content →
      runTurn env phone m st =
        (str "📚 *" ++ pyTitle p.topic ++ str " - Part " ++
           intStr (advancedProgress p content).lesson_step ++ str "*\n\n" ++
           env.fmt content ++
           str "\n\n_Type `/next` to continue or `/lesson <topic>` for something new!_",
         { st with progresses := st.progresses.map fun q =>
             if q.id == p.id then advancedProgress p content else q }) ∧
      (advancedProgress p content).id = p.id ∧
      (advancedProgress p content).lesson_step = p.lesson_step + 1 ∧
      (advancedProgress p content).lesson_content = content ∧
      (advancedProgress p content).topic = p.topic ∧
      (st.progresses.map fun q =>
        if q.id == p.id then advancedProgress p content else q).length =
        st.progresses.length) ∧
    (∀ p e, get_current_lesson st u.id = some p →
      env.gen (p.topic ++ str " - Advanced Concepts") u.age u.name = Except.error e →
      runTurn env phone m st = (nextFailReply, st)) := by
  have hhelp : strStartsWith (pyLower (pyStrip m)) (str "/help") = false :=
    startsWith_excl hroute (by decide)
  have hlesson : strStartsWith (pyLower (pyStrip m)) (str "/lesson") = false :=
    startsWith_excl hroute (by decide)
  refine ⟨?_, ?_, ?_⟩
  · intro hcur
    simp [runTurn, process_message, process_message_inner, dbOp, dbBind, dbPure, hf,
      noFault, hu, hob, handle_regular_message, hhelp, hlesson, hroute,
      handle_next_command, hcur]
  · intro p content hcur hgen
    refine ⟨?_, rfl, rfl, rfl, rfl, List.length_map ..⟩
    simp [runTurn, process_message, process_message_inner, dbOp, dbBind, dbPure,
      dbCatch, dbLift, hf, noFault, hu, hob, handle_regular_message, hhelp, hlesson,
      hroute, handle_next_command, hcur, hgen, update_progress, advancedProgress]
  · intro p e hcur hgen
    simp [runTurn, process_message, process_message_inner, dbOp, dbBind, dbPure,
      dbCatch, dbLift, hf, noFault, hu, hob, handle_regular_message, hhelp, hlesson,
      hroute, handle_next_command, hcur, hgen]

/-- Witness for C3: `/next` without a lesson, with a lesson, and with a
failing generator, at concrete inputs. -/
theorem c3_witness :
    runTurn witEnv (str "+15550100") (str "/next") storeWithUser =
      (noLessonsReply, storeWithUser) ∧
    runTurn witEnv (str "+15550100") (str "/next") storeWithLesson =
      (str "📚 *" ++ pyTitle prog0.topic ++ str " - Part " ++
         intStr (advancedProgress prog0 (str "LESSON")).lesson_step ++ str "*\n\n" ++
         str "LESSON" ++
         str "\n\n_Type `/next` to continue or `/lesson <topic>` for something new!_",
       { storeWithLesson with
           progresses := storeWithLesson.progresses.map fun q =>
             if q.id == prog0.id then advancedProgress prog0 (str "LESSON") else q }) ∧
    (advancedProgress prog0 (str "LESSON")).lesson_step = prog0.lesson_step + 1 ∧
    runTurn failGenEnv (str "+15550100") (str "/next") storeWithLesson =
      (nextFailReply, storeWithLesson) := by
  have h1 := c3_next_command witEnv storeWithUser (str "+15550100") (str "/next")
    onboardedUser rfl (by decide) rfl (by decide)
  have h2 := c3_next_command witEnv storeWithLesson (str "+15550100") (str "/next")
    onboardedUser rfl (by decide) rfl (by decide)
  have h3 := c3_next_command failGenEnv storeWithLesson (str "+15550100") (str "/next")
    onboardedUser rfl (by decide) rfl (by decide)
  exact ⟨h1.1 (by decide),
    (h2.2.1 prog0 (str "LESSON") (by decide) rfl).1,
    (h2.2.1 prog0 (str "LESSON") (by decide) rfl).2.2.1,
    h3.2.2 prog0 (str "boom") (by decide) rfl⟩

/-! ## C10: the name step -/

/-- C10.  At the name onboarding step, every input whose trimmed form has
length between 1 and 50 characters inclusive is accepted (the trimmed
form is stored verbatim as the display name) and advances the step to
`age`; an input that trims to empty or exceeds 50 characters after
trimming re-prompts without mutating the stored user. -/
theorem c10_name_step
    (env : Env) (st : Store) (phone m : Str) (u : User)
    (hf : env.dbFault = noFault)
    (hu : get_user_by_phone st phone = some u)
    (hob : u.is_onboarded = false)
    (hstep : u.onboarding_step = str "name") :
    (1 ≤ (pyStrip m).length → (pyStrip m).length ≤ 50 →
      runTurn env phone m st =
        (str "Nice to meet you, " ++ pyStrip m ++ str "! " ++ get_greeting_emoji 25 ++
           str "\n\n" ++ agePrompt,
         { st with users := st.users.map fun v =>
             if v.id == u.id then
               (applyUserUpdate u
                 { name := some (pyStrip m), onboarding_step := some (str "age") })
             else v }) ∧
      (applyUserUpdate u
        { name := some (pyStrip m), onboarding_step := some (str "age") }).name =
        some (pyStrip m) ∧
      (applyUserUpdate u
        { name := some (pyStrip m), onboarding_step := some (str "age") }).onboarding_step =
        str "age") ∧
    ((pyStrip m).length < 1 ∨ (pyStrip m).length > 50 →
      runTurn env phone m st =
        (str "Please enter a name between 1 and 50 characters. What should I call you?",
         st)) := by
  constructor
  · intro h1 h2
    have hne : ¬ pyStrip m = [] := by
      intro h
      rw [h] at h1
      simp at h1
    have hle : ¬ 50 < (pyStrip m).length := by omega
    refine ⟨?_, rfl, rfl⟩
    simp [runTurn, process_message, process_message_inner, dbOp, dbBind, dbPure, hf,
      noFault, hu, hob, handle_onboarding, hstep, process_name_step, hne, hle,
      update_user]
  · intro hbad
    have hd : pyStrip m = [] ∨ 50 < (pyStrip m).length := by
      rcases hbad with h | h
      · exact Or.inl (List.length_eq_zero.mp (by omega))
      · exact Or.inr h
    simp [runTurn, process_message, process_message_inner, dbOp, dbBind, dbPure, hf,
      noFault, hu, hob, handle_onboarding, hstep, process_name_step, hd]

/-- Witness for C10: `"  Alice  "` is accepted as `Alice` and advances to
the age step; a whitespace-only message re-prompts and mutates
nothing. -/
theorem c10_witness :
    runTurn witEnv (str "+15550100") (str "  Alice  ") nameStepStore =
      (str "Nice to meet you, " ++ pyStrip (str "  Alice  ") ++ str "! " ++
         get_greeting_emoji 25 ++ str "\n\n" ++ agePrompt,
       { nameStepStore with users := nameStepStore.users.map fun v =>
           if v.id == nameStepUser.id then
             (applyUserUpdate nameStepUser
               { name := some (pyStrip (str "  Alice  ")),
                 onboarding_step := some (str "age") })
           else v }) ∧
    (applyUserUpdate nameStepUser
      { name := some (pyStrip (str "  Alice  ")),
        onboarding_step := some (str "age") }).onboarding_step = str "age" ∧
    runTurn witEnv (str "+15550100") (str "   ") nameStepStore =
      (str "Please enter a name between 1 and 50 characters. What should I call you?",
       nameStepStore) := by
  have h1 := c10_name_step witEnv nameStepStore (str "+15550100") (str "  Alice  ")
    nameStepUser rfl (by decide) rfl rfl
  have h2 := c10_name_step witEnv nameStepStore (str "+15550100") (str "   ")
    nameStepUser rfl (by decide) rfl rfl
  exact ⟨(h1.1 (by decide) (by decide)).1, (h1.1 (by decide) (by decide)).2.2,
    h2.2 (Or.inl (by decide))⟩

/-! ## C6: invalid onboarding input -/

/-- Dispatch of _handle_onboarding for an existing user at step name. -/
theorem handle_onboarding_at_name (env : Env) (u : User) (m : Str)
    (h : u.onboarding_step = str "name") :
    handle_onboarding env u m false = process_name_step env u m := by
  simp [handle_onboarding, h]

/-- Dispatch of _handle_onboarding for an existing user at step age. -/
theorem handle_onboarding_at_age (env : Env) (u : User) (m : Str)
    (h : u.onboarding_step = str "age") :
    handle_onboarding env u m false = process_age_step env u m := by
  simp [handle_onboarding, h, show ¬(str "age" = str "name") from by decide]

/-- Dispatch of _handle_onboarding for an existing user at step country. -/
theorem handle_onboarding_at_country (env : Env) (u : User) (m : Str)
    (h : u.onboarding_step = str "country") :
    handle_onboarding env u m false = process_country_step env u m := by
  simp [handle_onboarding, h, show ¬(str "country" = str "name") from by decide,
    show ¬(str "country" = str "age") from by decide]

/-- Dispatch of _handle_onboarding for an existing user at step subjects. -/
theorem handle_onboarding_at_subjects (env : Env) (u : User) (m : Str)
    (h : u.onboarding_step = str "subjects") :
    handle_onboarding env u m false = process_subjects_step env u m := by
  simp [handle_onboarding, h, show ¬(str "subjects" = str "name") from by decide,
    show ¬(str "subjects" = str "age") from by decide,
    show ¬(str "subjects" = str "country") from by decide]

/-- Dispatch of _handle_onboarding for an existing user at step
learning_mode. -/
theorem handle_onboarding_at_mode (env : Env) (u : User) (m : Str)
    (h : u.onboarding_step = str "learning_mode") :
    handle_onboarding env u m false = process_learning_mode_step env u m := by
  simp [handle_onboarding, h, show ¬(str "learning_mode" = str "name") from by decide,
    show ¬(str "learning_mode" = str "age") from by decide,
    show ¬(str "learning_mode" = str "country") from by decide,
    show ¬(str "learning_mode" = str "subjects") from by decide]

/-- Dispatch of _handle_onboarding for an existing user at step
language. -/
theorem handle_onboarding_at_language (env : Env) (u : User) (m : Str)
    (h : u.onboarding_step = str "language") :
    handle_onboarding env u m false = process_language_step env u m := by
  simp [handle_onboarding, h, show ¬(str "language" = str "name") from by decide,
    show ¬(str "language" = str "age") from by decide,
    show ¬(str "language" = str "country") from by decide,
    show ¬(str "language" = str "subjects") from by decide,
    show ¬(str "language" = str "learning_mode") from by decide]

/-- C6.  For every not-yet-onboarded user at any onboarding step, an
input that fails that step's validation returns a corrective re-prompt
for the same step and leaves the stored user record unchanged, so
repeating the same invalid input yields the identical stored state; and
for any input whatsoever the stored step either stays put (with the
whole store unchanged) or moves to the linear successor. -/
theorem c6_onboarding_invalid_input
    (env : Env) (st : Store) (phone m : Str) (u : User)
    (hf : env.dbFault = noFault)
    (hu : get_user_by_phone st phone = some u)
    (hob : u.is_onboarded = false)
    (hsteps : u.onboarding_step ∈
      [str "name", str "age", str "country", str "subjects",
       str "learning_mode", str "language"]) :
    (stepRejects u.onboarding_step m = true →
      runTurn env phone m st = (repromptText u.onboarding_step, st) ∧
      runTurn env phone m (runTurn env phone m st).2 = runTurn env phone m st) ∧
    (∀ m' : Str, (runTurn env phone m' st).2 = st ∨
      ∃ u', (runTurn env phone m' st).2 =
          { st with users := st.users.map fun v => if v.id == u.id then u' else v } ∧
        u'.onboarding_step = stepNext u.onboarding_step) := by
  constructor
  · intro hrej
    have hmain : runTurn env phone m st = (repromptText u.onboarding_step, st) := by
      simp only [List.mem_cons, List.mem_singleton, List.not_mem_nil, or_false] at hsteps
      rcases hsteps with hstep | hstep | hstep | hstep | hstep | hstep <;>
        rw [hstep] at hrej ⊢
      · have hd : pyStrip m = [] ∨ 50 < (pyStrip m).length := by
          simpa [stepRejects] using hrej
        simp [runTurn, process_message, process_message_inner, dbOp, dbBind, dbPure,
          hf, noFault, hu, hob, handle_onboarding_at_name env u m hstep, process_name_step,
          repromptText, hd]
      · have hv : validate_age m = none := by
          simpa [stepRejects, Option.isNone_iff_eq_none] using hrej
        simp [runTurn, process_message, process_message_inner, dbOp, dbBind, dbPure,
          hf, noFault, hu, hob, handle_onboarding_at_age env u m hstep, process_age_step,
          repromptText, hv, show ¬(str "age" = str "name") from by decide]
      · have hv : validate_country m = none := by
          simpa [stepRejects, Option.isNone_iff_eq_none] using hrej
        simp [runTurn, process_message, process_message_inner, dbOp, dbBind, dbPure,
          hf, noFault, hu, hob, handle_onboarding_at_country env u m hstep, process_country_step,
          repromptText, hv, show ¬(str "country" = str "name") from by decide,
          show ¬(str "country" = str "age") from by decide]
      · have hv : validate_subjects m = [] := by
          simpa [stepRejects] using hrej
        simp [runTurn, process_message, process_message_inner, dbOp, dbBind, dbPure,
          hf, noFault, hu, hob, handle_onboarding_at_subjects env u m hstep, process_subjects_step,
          repromptText, hv, show ¬(str "subjects" = str "name") from by decide,
          show ¬(str "subjects" = str "age") from by decide,
          show ¬(str "subjects" = str "country") from by decide]
      · have hv : validate_learning_mode m = none := by
          simpa [stepRejects, Option.isNone_iff_eq_none] using hrej
        simp [runTurn, process_message, process_message_inner, dbOp, dbBind, dbPure,
          hf, noFault, hu, hob, handle_onboarding_at_mode env u m hstep, process_learning_mode_step,
          repromptText, hv, show ¬(str "learning_mode" = str "name") from by decide,
          show ¬(str "learning_mode" = str "age") from by decide,
          show ¬(str "learning_mode" = str "country") from by decide,
          show ¬(str "learning_mode" = str "subjects") from by decide]
      · have hd := hrej
        simp [stepRejects, show ¬(str "language" = str "name") from by decide,
          show ¬(str "language" = str "age") from by decide,
          show ¬(str "language" = str "country") from by decide,
          show ¬(str "language" = str "subjects") from by decide,
          show ¬(str "language" = str "learning_mode") from by decide] at hd
        obtain ⟨⟨h1, h2⟩, h3⟩ := hd
        simp [runTurn, process_message, process_message_inner, dbOp, dbBind, dbPure,
          hf, noFault, hu, hob, handle_onboarding_at_language env u m hstep,
          process_language_step, repromptText, h1, h2, h3,
          show ¬(str "language" = str "name") from by decide,
          show ¬(str "language" = str "age") from by decide,
          show ¬(str "language" = str "country") from by decide,
          show ¬(str "language" = str "subjects") from by decide,
          show ¬(str "language" = str "learning_mode") from by decide]
    exact ⟨hmain, by rw [hmain]; exact hmain⟩
  · intro m'
    simp only [List.mem_cons, List.mem_singleton, List.not_mem_nil, or_false] at hsteps
    rcases hsteps with hstep | hstep | hstep | hstep | hstep | hstep
    all_goals rw [hstep]
    all_goals simp only [stepNext]
    · by_cases hd : pyStrip m' = [] ∨ 50 < (pyStrip m').length
      · left
        simp [runTurn, process_message, process_message_inner, dbOp, dbBind, dbPure,
          hf, noFault, hu, hob, handle_onboarding_at_name env u m' hstep, process_name_step, hd]
      · right
        refine ⟨applyUserUpdate u
          { name := some (pyStrip m'), onboarding_step := some (str "age") }, ?_, rfl⟩
        simp [runTurn, process_message, process_message_inner, dbOp, dbBind, dbPure,
          hf, noFault, hu, hob, handle_onboarding_at_name env u m' hstep, process_name_step,
          hd, update_user]
    · cases hv : validate_age m' with
      | none =>
        left
        simp [runTurn, process_message, process_message_inner, dbOp, dbBind, dbPure,
          hf, noFault, hu, hob, handle_onboarding_at_age env u m' hstep, process_age_step, hv]
      | some a =>
        right
        refine ⟨applyUserUpdate u
          { age := some a, onboarding_step := some (str "country") }, ?_, rfl⟩
        simp [runTurn, process_message, process_message_inner, dbOp, dbBind, dbPure,
          hf, noFault, hu, hob, handle_onboarding_at_age env u m' hstep, process_age_step, hv,
          update_user]
    · cases hv : validate_country m' with
      | none =>
        left
        simp [runTurn, process_message, process_message_inner, dbOp, dbBind, dbPure,
          hf, noFault, hu, hob, handle_onboarding_at_country env u m' hstep, process_country_step, hv]
      | some c =>
        right
        refine ⟨applyUserUpdate u
          { country := some c, onboarding_step := some (str "subjects") }, ?_, rfl⟩
        simp [runTurn, process_message, process_message_inner, dbOp, dbBind, dbPure,
          hf, noFault, hu, hob, handle_onboarding_at_country env u m' hstep, process_country_step, hv,
          update_user]
    · by_cases hv : validate_subjects m' = []
      · left
        simp [runTurn, process_message, process_message_inner, dbOp, dbBind, dbPure,
          hf, noFault, hu, hob, handle_onboarding_at_subjects env u m' hstep, process_subjects_step, hv]
      · right
        refine ⟨applyUserUpdate u
          { preferred_subjects := some (store_subjects_as_json (validate_subjects m')),
            onboarding_step := some (str "learning_mode") }, ?_, rfl⟩
        simp [runTurn, process_message, process_message_inner, dbOp, dbBind, dbPure,
          hf, noFault, hu, hob, handle_onboarding_at_subjects env u m' hstep, process_subjects_step, hv,
          update_user]
    · cases hv : validate_learning_mode m' with
      | none =>
        left
        simp [runTurn, process_message, process_message_inner, dbOp, dbBind, dbPure,
          hf, noFault, hu, hob, handle_onboarding_at_mode env u m' hstep,
          process_learning_mode_step, hv]
      | some md =>
        right
        refine ⟨applyUserUpdate u
          { learning_mode := some md, onboarding_step := some (str "language") },
          ?_, rfl⟩
        simp [runTurn, process_message, process_message_inner, dbOp, dbBind, dbPure,
          hf, noFault, hu, hob, handle_onboarding_at_mode env u m' hstep,
          process_learning_mode_step, hv, update_user]
    · by_cases hd : pyLower (pyStrip m') = str "english" ∨
          pyLower (pyStrip m') = str "en" ∨ pyLower (pyStrip m') = str "eng"
      · right
        refine ⟨applyUserUpdate u
          { language := some (str "en"), is_onboarded := some true,
            onboarding_step := some (str "completed") }, ?_, rfl⟩
        rcases hd with h | h | h <;> cases hage : u.age <;>
          simp [runTurn, process_message, process_message_inner, dbOp, dbBind, dbPure,
            dbThrow, hf, noFault, hu, hob, handle_onboarding_at_language env u m' hstep,
            process_language_step, h, update_user, requireAge, applyUserUpdate, hage]
      · left
        have h1 : ¬ pyLower (pyStrip m') = str "english" := fun h => hd (Or.inl h)
        have h2 : ¬ pyLower (pyStrip m') = str "en" := fun h => hd (Or.inr (Or.inl h))
        have h3 : ¬ pyLower (pyStrip m') = str "eng" := fun h => hd (Or.inr (Or.inr h))
        simp [runTurn, process_message, process_message_inner, dbOp, dbBind, dbPure,
          hf, noFault, hu, hob, handle_onboarding_at_language env u m' hstep,
          process_language_step, h1, h2, h3]

/-- Witness for C6: the invalid age `banana` re-prompts, mutates nothing,
and a second identical submission behaves identically. -/
theorem c6_witness :
    stepRejects (str "age") (str "banana") = true ∧
    runTurn witEnv (str "+15550100") (str "banana") ageStepStore =
      (repromptText (str "age"), ageStepStore) ∧
    runTurn witEnv (str "+15550100") (str "banana")
        (runTurn witEnv (str "+15550100") (str "banana") ageStepStore).2 =
      runTurn witEnv (str "+15550100") (str "banana") ageStepStore := by
  have h := c6_onboarding_invalid_input witEnv ageStepStore (str "+15550100")
    (str "banana") ageStepUser rfl (by decide) rfl (by decide)
  exact ⟨by decide, (h.1 (by decide)).1, (h.1 (by decide)).2⟩

/-! ## Reachability invariant

`InvUser` is the state invariant claim C7 asserts (the
`is_onboarded ↔ completed` correspondence), strengthened with the fact
that every user past the age step has an age on record — which is what
makes the top-level error path of C5 leave no partial mutation. -/

theorem keepsStore_pure {α : Type} (a : α) : KeepsStore (dbPure a) := fun _ => rfl

theorem keepsStore_throw {α : Type} (e : Str) : KeepsStore (dbThrow e : DbM α) :=
  fun _ => rfl

theorem keepsStore_lift {α : Type} (r : Except Str α) : KeepsStore (dbLift r) :=
  fun _ => rfl

theorem keepsStore_requireAge (a : Option Int) : KeepsStore (requireAge a) := by
  cases a <;> intro s <;> rfl

theorem keepsStore_dbOp {α : Type} (fault : Nat → Option Str) (f : Store → α × Store)
    (hf : ∀ st, (f st).2 = st) : KeepsStore (dbOp fault f) := by
  intro s
  unfold dbOp
  cases fault s.ops <;> simp [hf]

theorem keepsStore_bind {α β : Type} {x : DbM α} {f : α → DbM β}
    (hx : KeepsStore x) (hf : ∀ a, KeepsStore (f a)) : KeepsStore (dbBind x f) := by
  intro s
  unfold dbBind
  cases hxs : x s with
  | mk r s1 =>
    cases r with
    | ok a =>
      have : s1.store = s.store := by have := hx s; rw [hxs] at this; exact this
      simp [← this, hf a s1]
    | error e =>
      have := hx s; rw [hxs] at this; exact this

theorem keepsStore_catch {α : Type} {x : DbM α} {h : Str → DbM α}
    (hx : KeepsStore x) (hh : ∀ e, KeepsStore (h e)) : KeepsStore (dbCatch x h) := by
  intro s
  unfold dbCatch
  cases hxs : x s with
  | mk r s1 =>
    cases r with
    | ok a => have := hx s; rw [hxs] at this; exact this
    | error e =>
      have h1 : s1.store = s.store := by have := hx s; rw [hxs] at this; exact this
      rw [← h1]; exact hh e s1

theorem noCommit_of_keepsStore {α : Type} {x : DbM α} (h : KeepsStore x) :
    NoCommitOnError x := by
  intro s e s' hx
  have := h s
  rw [hx] at this
  exact this

theorem preservesInv_of_keepsStore {α : Type} {x : DbM α} (h : KeepsStore x) :
    PreservesInv x := by
  intro s hs
  rw [h s]
  exact hs

theorem preservesInv_bind {α β : Type} {x : DbM α} {f : α → DbM β}
    (hx : PreservesInv x) (hf : ∀ a, PreservesInv (f a)) :
    PreservesInv (dbBind x f) := by
  intro s hs
  unfold dbBind
  cases hxs : x s with
  | mk r s1 =>
    cases r with
    | ok a =>
      refine hf a s1 ?_
      have := hx s hs; rw [hxs] at this; exact this
    | error e => have := hx s hs; rw [hxs] at this; exact this

theorem preservesInv_catch {α : Type} {x : DbM α} {h : Str → DbM α}
    (hx : PreservesInv x) (hh : ∀ e, PreservesInv (h e)) :
    PreservesInv (dbCatch x h) := by
  intro s hs
  unfold dbCatch
  cases hxs : x s with
  | mk r s1 =>
    cases r with
    | ok a => have := hx s hs; rw [hxs] at this; exact this
    | error e =>
      refine hh e s1 ?_
      have := hx s hs; rw [hxs] at this; exact this

/-- `update_user` preserves the invariant as soon as the rewritten row
satisfies it. -/
theorem preservesInv_dbOp_update_user (fault : Nat → Option Str) (u : User)
    (k : UserUpdate) (h : InvUser (applyUserUpdate u k)) :
    PreservesInv (dbOp fault (update_user u k)) := by
  intro s hs
  unfold dbOp
  cases fault s.ops with
  | some e => exact hs
  | none =>
    intro v hv
    simp only [update_user, List.mem_map] at hv
    obtain ⟨w, hw, rfl⟩ := hv
    by_cases hid : (w.id == u.id) = true
    · simpa [hid] using h
    · simpa [hid] using hs w hw

/-- A store write that does not touch the `users` table preserves the
invariant. -/
theorem preservesInv_dbOp_keepUsers {α : Type} (fault : Nat → Option Str)
    (f : Store → α × Store) (hf : ∀ st, (f st).2.users = st.users) :
    PreservesInv (dbOp fault f) := by
  intro s hs
  unfold dbOp
  cases fault s.ops with
  | some e => exact hs
  | none =>
    intro v hv
    rw [hf] at hv
    exact hs v hv

theorem preservesInv_name_step (env : Env) (u : User) (m : Str)
    (hob : u.is_onboarded = false) : PreservesInv (process_name_step env u m) := by
  have hiu : InvUser (applyUserUpdate u
      { name := some (pyStrip m), onboarding_step := some (str "age") }) := by
    constructor
    · simp [applyUserUpdate, hob, show ¬(str "age" = str "completed") from by decide]
    · intro hmem
      simp only [applyUserUpdate] at hmem
      rcases hmem with h | h | h | h | h <;> exact absurd h (by decide)
  unfold process_name_step
  by_cases hc : ((pyStrip m).length < 1 || (pyStrip m).length > 50) = true
  · rw [if_pos hc]
    exact preservesInv_of_keepsStore (keepsStore_pure _)
  · rw [if_neg hc]
    exact preservesInv_bind (preservesInv_dbOp_update_user _ _ _ hiu)
      fun _ => preservesInv_of_keepsStore (keepsStore_pure _)

theorem preservesInv_age_step (env : Env) (u : User) (m : Str)
    (hob : u.is_onboarded = false) : PreservesInv (process_age_step env u m) := by
  unfold process_age_step
  cases hv : validate_age m with
  | none => exact preservesInv_of_keepsStore (keepsStore_pure _)
  | some a =>
    have hiu : InvUser (applyUserUpdate u
        { age := some a, onboarding_step := some (str "country") }) := by
      constructor
      · simp [applyUserUpdate, hob, show ¬(str "country" = str "completed") from by decide]
      · intro _; simp [applyUserUpdate]
    exact preservesInv_bind (preservesInv_dbOp_update_user _ _ _ hiu)
      fun _ => preservesInv_of_keepsStore (keepsStore_pure _)

theorem preservesInv_country_step (env : Env) (u : User) (m : Str)
    (hob : u.is_onboarded = false) (hage : u.age.isSome = true) :
    PreservesInv (process_country_step env u m) := by
  unfold process_country_step
  cases hv : validate_country m with
  | none => exact preservesInv_of_keepsStore (keepsStore_pure _)
  | some c =>
    have hiu : InvUser (applyUserUpdate u
        { country := some c, onboarding_step := some (str "subjects") }) := by
      constructor
      · simp [applyUserUpdate, hob, show ¬(str "subjects" = str "completed") from by decide]
      · intro _; simpa [applyUserUpdate] using hage
    exact preservesInv_bind (preservesInv_dbOp_update_user _ _ _ hiu)
      fun _ => preservesInv_of_keepsStore (keepsStore_pure _)

theorem preservesInv_subjects_step (env : Env) (u : User) (m : Str)
    (hob : u.is_onboarded = false) (hage : u.age.isSome = true) :
    PreservesInv (process_subjects_step env u m) := by
  unfold process_subjects_step
  by_cases hv : (validate_subjects m).isEmpty = true
  · rw [if_pos hv]
    exact preservesInv_of_keepsStore (keepsStore_pure _)
  · rw [if_neg hv]
    have hiu : InvUser (applyUserUpdate u
        { preferred_subjects := some (store_subjects_as_json (validate_subjects m)),
          onboarding_step := some (str "learning_mode") }) := by
      constructor
      · simp [applyUserUpdate, hob,
          show ¬(str "learning_mode" = str "completed") from by decide]
      · intro _; simpa [applyUserUpdate] using hage
    exact preservesInv_bind (preservesInv_dbOp_update_user _ _ _ hiu)
      fun _ => preservesInv_of_keepsStore (keepsStore_pure _)

theorem preservesInv_mode_step (env : Env) (u : User) (m : Str)
    (hob : u.is_onboarded = false) (hage : u.age.isSome = true) :
    PreservesInv (process_learning_mode_step env u m) := by
  unfold process_learning_mode_step
  cases hv : validate_learning_mode m with
  | none => exact preservesInv_of_keepsStore (keepsStore_pure _)
  | some md =>
    have hiu : InvUser (applyUserUpdate u
        { learning_mode := some md, onboarding_step := some (str "language") }) := by
      constructor
      · simp [applyUserUpdate, hob, show ¬(str "language" = str "completed") from by decide]
      · intro _; simpa [applyUserUpdate] using hage
    exact preservesInv_bind (preservesInv_dbOp_update_user _ _ _ hiu)
      fun _ => preservesInv_of_keepsStore (keepsStore_pure _)

theorem preservesInv_language_step (env : Env) (u : User) (m : Str)
    (hage : u.age.isSome = true) : PreservesInv (process_language_step env u m) := by
  unfold process_language_step
  by_cases hc : (pyLower (pyStrip m) == str "english" || pyLower (pyStrip m) == str "en"
      || pyLower (pyStrip m) == str "eng") = true
  · rw [if_neg (by simp [hc])]
    have hiu : InvUser (applyUserUpdate u
        { language := some (str "en"), is_onboarded := some true,
          onboarding_step := some (str "completed") }) := by
      constructor
      · simp [applyUserUpdate]
      · intro _; simpa [applyUserUpdate] using hage
    refine preservesInv_bind (preservesInv_dbOp_update_user _ _ _ hiu) fun u' =>
      preservesInv_bind (preservesInv_of_keepsStore (keepsStore_requireAge _))
        fun _ => preservesInv_of_keepsStore (keepsStore_pure _)
  · rw [if_pos (by simpa using hc)]
    exact preservesInv_of_keepsStore (keepsStore_pure _)

theorem preservesInv_handle_onboarding (env : Env) (u : User) (m : Str) (nw : Bool)
    (hob : u.is_onboarded = false) (hiu : InvUser u) :
    PreservesInv (handle_onboarding env u m nw) := by
  unfold handle_onboarding
  by_cases h0 : (nw && u.onboarding_step == str "name" && optStrFalsy u.name) = true
  · rw [if_pos h0]
    exact preservesInv_of_keepsStore (keepsStore_pure _)
  · rw [if_neg h0]
    by_cases h1 : (u.onboarding_step == str "name") = true
    · rw [if_pos h1]
      exact preservesInv_name_step env u m hob
    · rw [if_neg h1]
      by_cases h2 : (u.onboarding_step == str "age") = true
      · rw [if_pos h2]
        exact preservesInv_age_step env u m hob
      · rw [if_neg h2]
        by_cases h3 : (u.onboarding_step == str "country") = true
        · rw [if_pos h3]
          exact preservesInv_country_step env u m hob
            (hiu.2 (Or.inl (beq_iff_eq.mp h3)))
        · rw [if_neg h3]
          by_cases h4 : (u.onboarding_step == str "subjects") = true
          · rw [if_pos h4]
            exact preservesInv_subjects_step env u m hob
              (hiu.2 (Or.inr (Or.inl (beq_iff_eq.mp h4))))
          · rw [if_neg h4]
            by_cases h5 : (u.onboarding_step == str "learning_mode") = true
            · rw [if_pos h5]
              exact preservesInv_mode_step env u m hob
                (hiu.2 (Or.inr (Or.inr (Or.inl (beq_iff_eq.mp h5)))))
            · rw [if_neg h5]
              by_cases h6 : (u.onboarding_step == str "language") = true
              · rw [if_pos h6]
                exact preservesInv_language_step env u m
                  (hiu.2 (Or.inr (Or.inr (Or.inr (Or.inl (beq_iff_eq.mp h6))))))
              · rw [if_neg h6]
                exact preservesInv_of_keepsStore (keepsStore_pure _)

theorem keepsStore_help (env : Env) (u : User) :
    KeepsStore (handle_help_command env u) := by
  unfold handle_help_command
  exact keepsStore_bind (keepsStore_requireAge _) fun _ => keepsStore_pure _

theorem keepsStore_general (env : Env) (u : User) (m : Str) :
    KeepsStore (handle_general_message env u m) := by
  unfold handle_general_message
  intro s
  cases h : scanKeywords (pyLower m) question_keywords with
  | some t => simp [h, dbPure]
  | none =>
    simp only [h]
    exact keepsStore_bind (keepsStore_requireAge _) (fun _ => keepsStore_pure _) s

theorem preservesInv_lesson (env : Env) (u : User) (m : Str) :
    PreservesInv (handle_lesson_command env u m) := by
  unfold handle_lesson_command
  cases parse_lesson_command m with
  | none => exact preservesInv_of_keepsStore (keepsStore_pure _)
  | some topic =>
    refine preservesInv_catch ?_ fun _ => preservesInv_of_keepsStore (keepsStore_pure _)
    refine preservesInv_bind (preservesInv_of_keepsStore (keepsStore_lift _)) fun c =>
      preservesInv_bind (preservesInv_dbOp_keepUsers _ _ fun _ => rfl) fun _ =>
        preservesInv_of_keepsStore (keepsStore_pure _)

theorem preservesInv_next (env : Env) (u : User) :
    PreservesInv (handle_next_command env u) := by
  unfold handle_next_command
  refine preservesInv_bind
    (preservesInv_of_keepsStore (keepsStore_dbOp _ _ fun _ => rfl)) fun cur => ?_
  cases cur with
  | none => exact preservesInv_of_keepsStore (keepsStore_pure _)
  | some p =>
    refine preservesInv_catch ?_ fun _ => preservesInv_of_keepsStore (keepsStore_pure _)
    refine preservesInv_bind (preservesInv_of_keepsStore (keepsStore_lift _)) fun c =>
      preservesInv_bind (preservesInv_dbOp_keepUsers _ _ fun _ => rfl) fun _ =>
        preservesInv_of_keepsStore (keepsStore_pure _)

theorem preservesInv_handle_regular (env : Env) (u : User) (m : Str) :
    PreservesInv (handle_regular_message env u m) := by
  unfold handle_regular_message
  by_cases h1 : strStartsWith (pyLower (pyStrip m)) (str "/help") = true
  · rw [if_pos h1]
    exact preservesInv_of_keepsStore (keepsStore_help env u)
  · rw [if_neg h1]
    by_cases h2 : strStartsWith (pyLower (pyStrip m)) (str "/lesson") = true
    · rw [if_pos h2]
      exact preservesInv_lesson env u (pyStrip m)
    · rw [if_neg h2]
      by_cases h3 : strStartsWith (pyLower (pyStrip m)) (str "/next") = true
      · rw [if_pos h3]
        exact preservesInv_next env u
      · rw [if_neg h3]
        exact preservesInv_of_keepsStore (keepsStore_general env u (pyStrip m))

/-- The row `create_user` inserts satisfies the invariant. -/
theorem invUser_fresh (st : Store) (phone : Str) : InvUser (freshUser st phone) := by
  constructor
  · simp [freshUser, show ¬(str "name" = str "completed") from by decide]
  · intro h
    simp only [freshUser] at h
    rcases h with h | h | h | h | h <;> exact absurd h (by decide)

theorem preservesInv_inner (env : Env) (phone m : Str) :
    PreservesInv (process_message_inner env phone m) := by
  intro s hs
  unfold process_message_inner dbBind
  cases hf0 : env.dbFault s.ops with
  | some e =>
    simpa [dbOp, hf0] using hs
  | none =>
    simp only [dbOp, hf0]
    cases hfind : get_user_by_phone s.store phone with
    | none =>
      simp only [hfind]
      cases hf1 : env.dbFault (s.ops + 1) with
      | some e => simpa [dbOp, hf1] using hs
      | none =>
        simp only [dbOp, hf1]
        have hnew : InvStore (create_user phone s.store).2 := by
          intro v hv
          simp only [create_user, List.mem_append, List.mem_singleton] at hv
          rcases hv with hv | rfl
          · exact hs v hv
          · exact invUser_fresh s.store phone
        simp only [create_user, handle_onboarding, optStrFalsy]
        simpa [dbPure] using hnew
    | some u =>
      simp only [hfind]
      have hmem : u ∈ s.store.users := List.mem_of_find?_eq_some hfind
      have hiu : InvUser u := hs u hmem
      cases hob : u.is_onboarded with
      | false =>
        simpa [hob] using
          preservesInv_handle_onboarding env u m false hob hiu
            { store := s.store, ops := s.ops + 1 } hs
      | true =>
        simpa [hob] using
          preservesInv_handle_regular env u m { store := s.store, ops := s.ops + 1 } hs

/-- One whole turn preserves the store invariant under any environment,
fault schedule included. -/
theorem preservesInv_runTurn (env : Env) (phone m : Str) (st : Store)
    (hs : InvStore st) : InvStore (runTurn env phone m st).2 := by
  unfold runTurn process_message
  have h := preservesInv_inner env phone m { store := st, ops := 0 } hs
  cases hi : process_message_inner env phone m { store := st, ops := 0 } with
  | mk r s' =>
    rw [hi] at h
    cases r <;> simpa using h

/-- C7.  For every reachable user state (starting from user creation and
applying any sequence of message-handling operations under any
environments), `is_onboarded` is true if and only if `onboarding_step`
equals `completed`. -/
theorem c7_onboarded_iff_completed (st : Store) (hr : Reachable st) :
    ∀ u ∈ st.users, (u.is_onboarded = true ↔ u.onboarding_step = str "completed") := by
  have hinv : InvStore st := by
    induction hr with
    | init => intro u hu; simp [emptyStore] at hu
    | step st env phone m hr ih => exact preservesInv_runTurn env phone m st ih
  exact fun u hu => (hinv u hu).1

/-- Witness for C7: after the first turn from the empty store the single
created user satisfies the equivalence (both sides false). -/
theorem c7_witness :
    (∀ u ∈ (runTurn witEnv (str "+15550100") (str "hello") emptyStore).2.users,
      (u.is_onboarded = true ↔ u.onboarding_step = str "completed")) ∧
    (runTurn witEnv (str "+15550100") (str "hello") emptyStore).2.users =
      [freshUser emptyStore (str "+15550100")] := by
  refine ⟨c7_onboarded_iff_completed _
    (Reachable.step emptyStore witEnv (str "+15550100") (str "hello")
      Reachable.init), by decide⟩

/-! ## C5: the top-level exception boundary -/

theorem neverErr_pure {α : Type} (a : α) : NeverErr (dbPure a) := by
  intro s e s' h
  simp [dbPure] at h

/-- A `try`/`except` whose handler only builds a reply never raises. -/
theorem neverErr_catch_pure {α : Type} (x : DbM α) (g : Str → α) :
    NeverErr (dbCatch x fun e => dbPure (g e)) := by
  intro s e s' h
  unfold dbCatch at h
  cases hxs : x s with
  | mk r s1 =>
    rw [hxs] at h
    cases r with
    | ok a => simp at h
    | error e1 => simp [dbPure] at h

theorem noCommit_of_neverErr {α : Type} {x : DbM α} (h : NeverErr x) :
    NoCommitOnError x := by
  intro s e s' hx
  exact absurd hx fun hh => h s e s' hh

/-- A raising store operation commits nothing. -/
theorem noCommit_dbOp {α : Type} (fault : Nat → Option Str) (f : Store → α × Store) :
    NoCommitOnError (dbOp fault f) := by
  intro s e s' h
  unfold dbOp at h
  cases hfv : fault s.ops with
  | some e0 =>
    rw [hfv] at h
    have hh : e0 = e ∧ ({ s with ops := s.ops + 1 } : TurnState) = s' := by
      simpa using h
    rw [← hh.2]
  | none =>
    rw [hfv] at h
    simp at h

theorem noCommit_bind_keeps {α β : Type} {x : DbM α} {f : α → DbM β}
    (hx : KeepsStore x) (hf : ∀ a, NoCommitOnError (f a)) :
    NoCommitOnError (dbBind x f) := by
  intro s e s' h
  unfold dbBind at h
  cases hxs : x s with
  | mk r s1 =>
    rw [hxs] at h
    cases r with
    | ok a =>
      have h1 : s1.store = s.store := by have := hx s; rw [hxs] at this; exact this
      rw [← h1]
      exact hf a s1 e s' h
    | error e1 =>
      have hh : e1 = e ∧ s1 = s' := by simpa using h
      rw [← hh.2]
      have := hx s; rw [hxs] at this; exact this

theorem noCommit_bind_of_neverErr {α β : Type} {x : DbM α} {f : α → DbM β}
    (hx : NoCommitOnError x) (hf : ∀ a, NeverErr (f a)) :
    NoCommitOnError (dbBind x f) := by
  intro s e s' h
  unfold dbBind at h
  cases hxs : x s with
  | mk r s1 =>
    rw [hxs] at h
    cases r with
    | ok a => exact absurd h fun hh => hf a s1 e s' hh
    | error e1 =>
      have hh : e1 = e ∧ s1 = s' := by simpa using h
      rw [← hh.2]
      exact hx s e1 s1 hxs

theorem noCommit_name_step (env : Env) (u : User) (m : Str) :
    NoCommitOnError (process_name_step env u m) := by
  unfold process_name_step
  by_cases hc : ((pyStrip m).length < 1 || (pyStrip m).length > 50) = true
  · rw [if_pos hc]
    exact noCommit_of_neverErr (neverErr_pure _)
  · rw [if_neg hc]
    exact noCommit_bind_of_neverErr (noCommit_dbOp _ _) fun _ => neverErr_pure _

theorem noCommit_age_step (env : Env) (u : User) (m : Str) :
    NoCommitOnError (process_age_step env u m) := by
  unfold process_age_step
  cases validate_age m with
  | none => exact noCommit_of_neverErr (neverErr_pure _)
  | some a => exact noCommit_bind_of_neverErr (noCommit_dbOp _ _) fun _ => neverErr_pure _

theorem noCommit_country_step (env : Env) (u : User) (m : Str) :
    NoCommitOnError (process_country_step env u m) := by
  unfold process_country_step
  cases validate_country m with
  | none => exact noCommit_of_neverErr (neverErr_pure _)
  | some c => exact noCommit_bind_of_neverErr (noCommit_dbOp _ _) fun _ => neverErr_pure _

theorem noCommit_subjects_step (env : Env) (u : User) (m : Str) :
    NoCommitOnError (process_subjects_step env u m) := by
  unfold process_subjects_step
  by_cases hv : ((validate_subjects m).isEmpty : Bool) = true
  · rw [if_pos hv]
    exact noCommit_of_neverErr (neverErr_pure _)
  · rw [if_neg hv]
    exact noCommit_bind_of_neverErr (noCommit_dbOp _ _) fun _ => neverErr_pure _

theorem noCommit_mode_step (env : Env) (u : User) (m : Str) :
    NoCommitOnError (process_learning_mode_step env u m) := by
  unfold process_learning_mode_step
  cases validate_learning_mode m with
  | none => exact noCommit_of_neverErr (neverErr_pure _)
  | some md => exact noCommit_bind_of_neverErr (noCommit_dbOp _ _) fun _ => neverErr_pure _

/-- The language step cannot raise after its commit, because every user
reaching it has an age on record (which is why `get_greeting_emoji` on
`user.age` cannot produce `TypeError` there). -/
theorem noCommit_language_step (env : Env) (u : User) (m : Str)
    (hage : u.age.isSome = true) : NoCommitOnError (process_language_step env u m) := by
  unfold process_language_step
  by_cases hc : (pyLower (pyStrip m) == str "english" || pyLower (pyStrip m) == str "en"
      || pyLower (pyStrip m) == str "eng") = true
  · rw [if_neg (by simp [hc])]
    intro s e s' h
    unfold dbBind dbOp at h
    cases hfv : env.dbFault s.ops with
    | some e0 =>
      rw [hfv] at h
      have hh : e0 = e ∧ ({ s with ops := s.ops + 1 } : TurnState) = s' := by
        simpa using h
      rw [← hh.2]
    | none =>
      rw [hfv] at h
      obtain ⟨a, ha⟩ := Option.isSome_iff_exists.mp hage
      simp [update_user, applyUserUpdate, ha, requireAge, dbPure] at h
  · rw [if_pos (by simpa using hc)]
    exact noCommit_of_neverErr (neverErr_pure _)

theorem noCommit_handle_onboarding (env : Env) (u : User) (m : Str) (nw : Bool)
    (hiu : InvUser u) : NoCommitOnError (handle_onboarding env u m nw) := by
  unfold handle_onboarding
  by_cases h0 : (nw && u.onboarding_step == str "name" && optStrFalsy u.name) = true
  · rw [if_pos h0]
    exact noCommit_of_neverErr (neverErr_pure _)
  · rw [if_neg h0]
    by_cases h1 : (u.onboarding_step == str "name") = true
    · rw [if_pos h1]
      exact noCommit_name_step env u m
    · rw [if_neg h1]
      by_cases h2 : (u.onboarding_step == str "age") = true
      · rw [if_pos h2]
        exact noCommit_age_step env u m
      · rw [if_neg h2]
        by_cases h3 : (u.onboarding_step == str "country") = true
        · rw [if_pos h3]
          exact noCommit_country_step env u m
        · rw [if_neg h3]
          by_cases h4 : (u.onboarding_step == str "subjects") = true
          · rw [if_pos h4]
            exact noCommit_subjects_step env u m
          · rw [if_neg h4]
            by_cases h5 : (u.onboarding_step == str "learning_mode") = true
            · rw [if_pos h5]
              exact noCommit_mode_step env u m
            · rw [if_neg h5]
              by_cases h6 : (u.onboarding_step == str "language") = true
              · rw [if_pos h6]
                exact noCommit_language_step env u m
                  (hiu.2 (Or.inr (Or.inr (Or.inr (Or.inl (beq_iff_eq.mp h6))))))
              · rw [if_neg h6]
                exact noCommit_of_neverErr (neverErr_pure _)

theorem noCommit_lesson (env : Env) (u : User) (m : Str) :
    NoCommitOnError (handle_lesson_command env u m) := by
  unfold handle_lesson_command
  cases parse_lesson_command m with
  | none => exact noCommit_of_neverErr (neverErr_pure _)
  | some topic => exact noCommit_of_neverErr (neverErr_catch_pure _ _)

theorem noCommit_next (env : Env) (u : User) :
    NoCommitOnError (handle_next_command env u) := by
  unfold handle_next_command
  refine noCommit_bind_keeps (keepsStore_dbOp _ _ fun _ => rfl) fun cur => ?_
  cases cur with
  | none => exact noCommit_of_neverErr (neverErr_pure _)
  | some p => exact noCommit_of_neverErr (neverErr_catch_pure _ _)

theorem noCommit_handle_regular (env : Env) (u : User) (m : Str) :
    NoCommitOnError (handle_regular_message env u m) := by
  unfold handle_regular_message
  by_cases h1 : strStartsWith (pyLower (pyStrip m)) (str "/help") = true
  · rw [if_pos h1]
    exact noCommit_of_keepsStore (keepsStore_help env u)
  · rw [if_neg h1]
    by_cases h2 : strStartsWith (pyLower (pyStrip m)) (str "/lesson") = true
    · rw [if_pos h2]
      exact noCommit_lesson env u (pyStrip m)
    · rw [if_neg h2]
      by_cases h3 : strStartsWith (pyLower (pyStrip m)) (str "/next") = true
      · rw [if_pos h3]
        exact noCommit_next env u
      · rw [if_neg h3]
        exact noCommit_of_keepsStore (keepsStore_general env u (pyStrip m))

/-- On an invariant-satisfying store, a raising turn body commits
nothing. -/
theorem noCommit_inner (env : Env) (phone m : Str) (s : TurnState)
    (hs : InvStore s.store) :
    ∀ e s', process_message_inner env phone m s = (Except.error e, s') →
      s'.store = s.store := by
  intro e s' h
  unfold process_message_inner dbBind at h
  cases hf0 : env.dbFault s.ops with
  | some e0 =>
    simp only [dbOp, hf0] at h
    have hh : e0 = e ∧ ({ s with ops := s.ops + 1 } : TurnState) = s' := by
      simpa using h
    rw [← hh.2]
  | none =>
    simp only [dbOp, hf0] at h
    cases hfind : get_user_by_phone s.store phone with
    | none =>
      rw [hfind] at h
      cases hf1 : env.dbFault (s.ops + 1) with
      | some e1 =>
        simp only [hf1] at h
        have hh : e1 = e ∧
            ({ store := s.store, ops := s.ops + 1 + 1 } : TurnState) = s' := by
          simpa using h
        rw [← hh.2]
      | none =>
        simp only [hf1] at h
        simp [create_user, handle_onboarding, optStrFalsy, dbPure] at h
    | some u =>
      rw [hfind] at h
      have hiu : InvUser u := hs u (List.mem_of_find?_eq_some hfind)
      cases hob : u.is_onboarded with
      | false =>
        simp only [hob, Bool.not_false, if_true] at h
        exact noCommit_handle_onboarding env u m false hiu
          { store := s.store, ops := s.ops + 1 } e s' h
      | true =>
        simp only [hob, Bool.not_true, Bool.false_eq_true, if_false] at h
        exact noCommit_handle_regular env u m
          { store := s.store, ops := s.ops + 1 } e s' h

/-- C5.  For every inbound message and user state satisfying the
reachable-state invariant, any failure raised during the handling of that
message is caught at the top level of the turn handler and converted into
the single generic technical-difficulty reply — a fixed constant, the
same whatever the exception's message, so the failure never appears in
the reply text — and no partial store mutation is committed for that
turn. -/
theorem c5_top_level_failure_boundary
    (env : Env) (st : Store) (phone m : Str) (hInv : InvStore st) :
    ∀ e s', process_message_inner env phone m { store := st, ops := 0 } =
        (Except.error e, s') →
      s'.store = st ∧
      process_message env phone m { store := st, ops := 0 } =
        (techDifficulties, s') ∧
      runTurn env phone m st = (techDifficulties, st) := by
  intro e s' herr
  have hst : s'.store = st := noCommit_inner env phone m { store := st, ops := 0 } hInv e s' herr
  refine ⟨hst, by simp [process_message, herr], ?_⟩
  simp [runTurn, process_message, herr, hst]

/-- Witness for C5: with the store layer down, the turn yields exactly
the generic reply and the store is untouched. -/
theorem c5_witness :
    runTurn dbDownEnv (str "+15550100") (str "/lesson fractions") storeWithUser =
      (techDifficulties, storeWithUser) := by
  exact (c5_top_level_failure_boundary dbDownEnv storeWithUser (str "+15550100")
    (str "/lesson fractions")
    (by intro v hv
        simp only [storeWithUser, List.mem_singleton] at hv
        subst hv
        constructor
        · decide
        · intro h; decide)
    (str "OperationalError")
    { store := storeWithUser, ops := 1 } rfl).2.2

/-! ## C8: free-text handling -/

/-- C8.  For every onboarded user, a non-command message is
keyword-scanned; if a phrase is found whose residual topic exceeds 3
characters, the reply suggests the equivalent `/lesson` command;
otherwise the reply is an age-tiered canned nudge, and for ages over 16
it is the template selected from the fixed set of three by the process's
string hash of the phone number modulo the set size — a function of the
environment and phone number only, so the same phone number always
yields the same template. -/
theorem c8_general_message
    (env : Env) (st : Store) (phone m : Str) (u : User) (a : Int)
    (hf : env.dbFault = noFault)
    (hu : get_user_by_phone st phone = some u)
    (hob : u.is_onboarded = true)
    (hage : u.age = some a)
    (h1 : strStartsWith (pyLower (pyStrip m)) (str "/help") = false)
    (h2 : strStartsWith (pyLower (pyStrip m)) (str "/lesson") = false)
    (h3 : strStartsWith (pyLower (pyStrip m)) (str "/next") = false) :
    (∀ topic, scanKeywords (pyLower (pyStrip m)) question_keywords = some topic →
      runTurn env phone m st =
        (str "Great question! Let me teach you about " ++ topic ++
           str ". 📚\n\nTry: `/lesson " ++ topic ++
           str "`\n\nOr type `/help` to see all available commands!", st)) ∧
    (scanKeywords (pyLower (pyStrip m)) question_keywords = none →
      runTurn env phone m st =
        (env.fmt
          (if a ≤ 8 then
            str "Hi " ++ showOptStr u.name ++
              str "! 🌟 Want to learn something fun? Try `/lesson colors` or `/lesson animals`!"
          else if a ≤ 12 then
            str "Hey " ++ showOptStr u.name ++
              str "! 📚 Ready for a lesson? Try `/lesson fractions` or `/lesson dinosaurs`!"
          else
            (general_responses u).getD (env.pyHash u.phone_number % 3) (str "")), st)) := by
  constructor
  · intro topic hscan
    simp [runTurn, process_message, process_message_inner, dbOp, dbBind, dbPure, hf,
      noFault, hu, hob, handle_regular_message, h1, h2, h3, handle_general_message,
      hscan]
  · intro hscan
    have hlen : (general_responses u).length = 3 := by simp [general_responses]
    simp [runTurn, process_message, process_message_inner, dbOp, dbBind, dbPure, hf,
      noFault, hu, hob, handle_regular_message, h1, h2, h3, handle_general_message,
      hscan, requireAge, hage, hlen]

set_option maxRecDepth 100000 in
/-- Witness for C8: `What is gravity?` suggests `/lesson gravity`;
`hello` from the age-12 user yields the mid-band nudge; `hello` from the
adult user yields the hash-selected template, twice identically. -/
theorem c8_witness :
    runTurn witEnv (str "+15550100") (str "What is gravity?") storeWithUser =
      (str "Great question! Let me teach you about " ++ str "gravity" ++
         str ". 📚\n\nTry: `/lesson " ++ str "gravity" ++
         str "`\n\nOr type `/help` to see all available commands!", storeWithUser) ∧
    runTurn witEnv (str "+15550100") (str "hello") storeWithUser =
      (str "Hey " ++ str "Alice" ++
         str "! 📚 Ready for a lesson? Try `/lesson fractions` or `/lesson dinosaurs`!",
       storeWithUser) ∧
    runTurn witEnv (str "+15550123") (str "hello") adultStore =
      ((general_responses adultUser).getD (witEnv.pyHash adultUser.phone_number % 3)
         (str ""), adultStore) ∧
    (runTurn witEnv (str "+15550123") (str "hello") adultStore).1 =
      (runTurn witEnv (str "+15550123") (str "hello") adultStore).1 := by
  have ha := c8_general_message witEnv storeWithUser (str "+15550100")
    (str "What is gravity?") onboardedUser 12 rfl (by decide) rfl rfl
    (by decide) (by decide) (by decide)
  have hb := c8_general_message witEnv storeWithUser (str "+15550100")
    (str "hello") onboardedUser 12 rfl (by decide) rfl rfl
    (by decide) (by decide) (by decide)
  have hc := c8_general_message witEnv adultStore (str "+15550123")
    (str "hello") adultUser 25 rfl (by decide) rfl rfl
    (by decide) (by decide) (by decide)
  refine ⟨?_, ?_, ?_, rfl⟩
  · exact ha.1 (str "gravity") (by decide)
  · have h := hb.2 (by decide)
    rw [h]
    decide
  · have h := hc.2 (by decide)
    rw [h]
    decide

/-! ## C4: the generator adapter's never-fail contract (code bug) -/

set_option maxRecDepth 100000 in
/-- C4, failing input.  With no API key configured (the `unavailable
client` case of the claim), `generate_lesson` re-raises the exception
from `initialize` to its caller instead of returning the fallback lesson:
the `if not self._initialized or self.client is None` fallback branch in
llm.py is unreachable because `initialize()` either succeeds or raises.
The repository's own expectations say otherwise (test_llm.py prints
`Using fallback lessons only...` and then still calls `generate_lesson`
expecting lessons; main.py's startup says `Application will continue but
lessons may use fallback content`), so the code, not the claim, is
wrong. -/
theorem c4_unavailable_client_raises :
    llm_generate_lesson
        { apiKeyPresent := false, testCall := Except.ok none,
          lessonCall := Except.ok none }
        {} (str "fractions") 10 (str "Emma") =
      Except.error
        (str "OpenRouter API key is required. Please set OPENROUTER_API_KEY environment variable.") ∧
    get_fallback_lesson (str "fractions") 10 = pyStrip fractionsLesson := by
  constructor
  · rfl
  · decide

/-! ## C9: the fallback lookup -/

set_option maxRecDepth 100000 in
/-- C9.  When the remote generation call is unavailable or fails, the
fallback substring-matches the lowercased topic against the fixed
dictionary keys: every topic containing `fractions` yields text
containing `pizza`; a topic matching no key yields the generic template
embedding the topic name; and a remote response whose stripped content
is shorter than 50 characters triggers the fallback rather than being
returned. -/
theorem c9_fallback_lookup :
    (∀ (topic : Str) (age : Int),
      strContains (pyLower topic) (str "fractions") = true →
      strContains (get_fallback_lesson topic age) (str "pizza") = true) ∧
    (∀ (topic : Str) (age : Int),
      strContains (pyLower topic) (str "fractions") = false →
      strContains (pyLower topic) (str "addition") = false →
      strContains (pyLower topic) (str "photosynthesis") = false →
      strContains (pyLower topic) (str "multiplication") = false →
      strContains (pyLower topic) (str "solar system") = false →
      get_fallback_lesson topic age = pyStrip (genericFallback topic)) ∧
    (∀ (env : LLMEnv) (s : LLMState) (content topic nm : Str) (age : Int),
      s.inited = true → s.clientSome = true →
      env.lessonCall = Except.ok (some content) →
      (pyStrip content).length < 50 →
      llm_generate_lesson env s topic age nm =
        Except.ok (get_fallback_lesson topic age, s)) := by
  refine ⟨?_, ?_, ?_⟩
  · intro topic age h
    unfold get_fallback_lesson
    rw [if_pos h]
    decide
  · intro topic age h1 h2 h3 h4 h5
    simp [get_fallback_lesson, h1, h2, h3, h4, h5]
  · intro env s content topic nm age hi hc hcall hlen
    unfold llm_generate_lesson
    rw [if_pos hi]
    simp [hi, hc, hcall, hlen]

set_option maxRecDepth 100000 in
/-- Witness for C9: the fractions fallback at `learn fractions now`, the
generic template at `banana`, and a 5-character remote response
triggering the fallback. -/
theorem c9_witness :
    strContains (get_fallback_lesson (str "learn fractions now") 7) (str "pizza") = true ∧
    get_fallback_lesson (str "banana") 7 = pyStrip (genericFallback (str "banana")) ∧
    llm_generate_lesson
        { apiKeyPresent := true, testCall := Except.ok (some (str "OK")),
          lessonCall := Except.ok (some (str "short")) }
        { inited := true, clientSome := true } (str "fractions") 10 (str "Emma") =
      Except.ok (get_fallback_lesson (str "fractions") 10,
        { inited := true, clientSome := true }) := by
  refine ⟨?_, ?_, ?_⟩
  · exact c9_fallback_lookup.1 (str "learn fractions now") 7 (by decide)
  · exact c9_fallback_lookup.2.1 (str "banana") 7 (by decide) (by decide) (by decide)
      (by decide) (by decide)
  · exact c9_fallback_lookup.2.2 _ _ (str "short") (str "fractions") (str "Emma") 10
      rfl rfl rfl (by decide)

end EduAi
